import Mathlib

/-!
DW1000 driver: register access protocol and transceiver session state

A shallow embedding of `src/DW1000/DW1000.cpp` and `src/DW1000/DW1000.h`.

Conventions of the embedding:

* a `byte` is a `Nat`; every store into a `byte` is followed by `% 256`;
* a `byte x[]` argument that is one of the driver's register images is a
  `List Nat`, entry `i` being `x[i]`;
* a `byte data[]` argument that is a caller's buffer is a function
  `Nat → Nat`, `data i` being the byte the pointer expression `data[i]` reads;
* `int` arguments that are lengths or bit positions are `Nat` (the callers in
  the source pass non-negative values); the one sum computed on an `int`,
  `n += 2` in `setData`, wraps around in a 32-bit `int`;
* the serial bus is a log of transactions: every `writeBytes` or `readBytes`
  call appends the bytes it sends between asserting and releasing the
  chip-select line (the build without `DEBUG`).
-/

namespace DW1000

/-! ## Constants of `DW1000.h` -/

def IDLE_MODE : Nat := 0x00
def RX_MODE : Nat := 0x01
def TX_MODE : Nat := 0x02

def JUNK : Nat := 0x00

def NO_SUB : Nat := 0x00
def SUB_2 : Nat := 0x02
def SUB_4 : Nat := 0x04
def SUB_6 : Nat := 0x06
def SUB_7 : Nat := 0x07
def SUB_8 : Nat := 0x08
def SUB_B : Nat := 0x0B
def SUB_C : Nat := 0x0C
def SUB_26 : Nat := 0x26
def SUB_1806 : Nat := 0x1806
def SUB_2804 : Nat := 0x2804

def DEV_ID : Nat := 0x00
def LEN_DEV_ID : Nat := 4

def SYS_CFG : Nat := 0x04
def LEN_SYS_CFG : Nat := 4
def FFEN_BIT : Nat := 0
def DIS_DRXB_BIT : Nat := 12
def PHR_MODE_LSB : Nat := 16
def PHR_MODE_MSB : Nat := 17
def RXAUTR_BIT : Nat := 29

def SYS_CTRL : Nat := 0x0D
def LEN_SYS_CTRL : Nat := 4
def SFCST_BIT : Nat := 0
def TXSTRT_BIT : Nat := 1
def TXDLYS_BIT : Nat := 2
def TRXOFF_BIT : Nat := 6
def WAIT4RESP_BIT : Nat := 7
def RXENAB_BIT : Nat := 8
def RXDLYS_BIT : Nat := 9
def FS_CTRL : Nat := 0x2B

def SYS_STATUS : Nat := 0x0F
def LEN_SYS_STATUS : Nat := 5
def TXFRS_BIT : Nat := 7
def LDEDONE_BIT : Nat := 10
def RXDFR_BIT : Nat := 13
def RXFCG_BIT : Nat := 14
def RXFCE_BIT : Nat := 15
def RXRFSL_BIT : Nat := 16
def LDEERR_BIT : Nat := 18

def TX_BUFFER : Nat := 0x09
def LEN_TX_BUFFER : Nat := 1024
def LEN_UWB_FRAMES : Nat := 127
def LEN_EXT_UWB_FRAMES : Nat := 1023

def TX_FCTRL : Nat := 0x08
def LEN_TX_FCTRL : Nat := 5
def TX_CAL : Nat := 0x2A

def DRX_TUNE : Nat := 27
def RF_CONF : Nat := 28
def LDE_IF : Nat := 0x2E

def TX_RATE_110KBPS : Nat := 0x00
def TX_RATE_850KBPS : Nat := 0x01
def TX_RATE_6800KBPS : Nat := 0x02

def TX_PULSE_FREQ_16MHZ : Nat := 0x01
def TX_PULSE_FREQ_64MHZ : Nat := 0x02

/-- `static const byte WRITE = 0x80`: regular write. -/
def WRITE : Nat := 0x80
/-- `static const byte WRITE_SUB = 0xC0`: write with sub address. -/
def WRITE_SUB : Nat := 0xC0
/-- `static const byte READ = 0x00`: regular read. -/
def READ : Nat := 0x00

/-! ## The bit macros -/

/-- `bitSet(value, bit)`, that is `((value) |= (1UL << (bit)))`, on a `byte`
lvalue: the result is what the byte holds afterwards. `1UL` has 32 bits. -/
def bitSet (value bit : Nat) : Nat :=
  (value ||| ((1 <<< bit) % 2 ^ 32)) % 256

/-- `bitClear(value, bit)`, that is `((value) &= ~(1UL << (bit)))`, on a `byte`
lvalue: the result is what the byte holds afterwards. -/
def bitClear (value bit : Nat) : Nat :=
  (value &&& (2 ^ 32 - 1 - (1 <<< bit) % 2 ^ 32)) % 256

/-- `bitRead(value, bit)`, that is `(((value) >> (bit)) & 0x01)`. -/
def bitRead (value bit : Nat) : Nat :=
  (value >>> bit) &&& 0x01

/-! ## Helper functions: `setBit`, `getBit` -/

/-- `DW1000::setBit(byte data[], int n, int bit, boolean val)`.

The local `int shift` is declared and never assigned before
`bitSet(*targetByte, shift)` / `bitClear(*targetByte, shift)` use it; the
value it happens to hold is the first argument `shift` here. The result is
the array after the call. -/
def setBit (shift : Nat) (data : List Nat) (n bit : Nat) (val : Bool) : List Nat :=
  let idx := bit / 8
  if idx ≥ n then
    data
  else if val then
    data.set idx (bitSet (data.getD idx 0) shift)
  else
    data.set idx (bitClear (data.getD idx 0) shift)

/-- `DW1000::getBit(byte data[], int n, int bit)`. -/
def getBit (data : List Nat) (n bit : Nat) : Bool :=
  let idx := bit / 8
  if idx ≥ n then
    false
  else
    let targetByte := data.getD idx 0
    let shift := bit % 8
    bitRead targetByte shift != 0

/-! ## Driver state and the bus -/

/-- One bus transaction, from asserting to releasing the chip-select line:
the bytes the driver sends. A write sends the header bytes and then the
payload bytes; a read sends one command byte and then `n` filler bytes
(`JUNK`). -/
inductive Transaction where
  | write (header : List Nat) (payload : List Nat)
  | read (command : Nat) (n : Nat)
  deriving DecidableEq, Repr

/-- The private members of `class DW1000`, together with the log of the bus
transactions issued so far (oldest first). -/
structure State where
  _ss : Nat
  _syscfg : List Nat
  _sysctrl : List Nat
  _frameCheckSuppressed : Bool
  _extendedFrameLength : Bool
  _txfctrl : List Nat
  _deviceMode : Nat
  bus : List Transaction
  deriving DecidableEq, Repr

/-- A register image read through a pointer to its first byte: `ptr img i` is
`img[i]`. The driver passes every image together with its own length, so no
index past the end is read; such an index gives 0 here. -/
def ptr (img : List Nat) : Nat → Nat :=
  fun i => img.getD i 0

/-- The bytes `header[0]` .. `header[headerLen - 1]` that
`DW1000::writeBytes(byte cmd, word offset, byte data[], int n)` builds. The
argument `offset` is the value of the `word`, below `2 ^ 16`. -/
def writeBytesHeader (cmd offset : Nat) : List Nat :=
  if offset = NO_SUB then
    [(WRITE ||| cmd) % 256]
  else if offset < 128 then
    [(WRITE_SUB ||| cmd) % 256, offset % 256]
  else
    [(WRITE_SUB ||| cmd) % 256, (WRITE ||| (offset % 256)) % 256, (offset >>> 7) % 256]

/-- `DW1000::writeBytes(byte cmd, word offset, byte data[], int n)`: the header
bytes and then `data[0]` .. `data[n - 1]` are transferred. -/
def writeBytes (st : State) (cmd offset : Nat) (data : Nat → Nat) (n : Nat) : State :=
  { st with bus := st.bus ++ [Transaction.write (writeBytesHeader cmd offset)
                                ((List.range n).map data)] }

/-- The command byte `READ | cmd` that `DW1000::readBytes` transfers first. -/
def readBytesCommand (cmd : Nat) : Nat :=
  (READ ||| cmd) % 256

/-- `DW1000::readBytes(byte cmd, byte data[], int n)`: the command byte is
transferred, then `n` filler bytes; `resp i` is the byte the chip returns for
the `i`-th filler byte. The second component is `data[0]` .. `data[n - 1]`
after the call. -/
def readBytes (st : State) (cmd : Nat) (resp : Nat → Nat) (n : Nat) : State × List Nat :=
  ({ st with bus := st.bus ++ [Transaction.read (readBytesCommand cmd) n] },
   (List.range n).map (fun i => resp i % 256))

/-- `DW1000::DW1000(int ss)`. The constructor assigns `_ss`, `_deviceMode`
and the two flags; it does not touch the three register images, whose
contents at construction are the arguments `syscfg`, `sysctrl`, `txfctrl`
(all zero for a driver object with static storage). -/
def new (ss : Nat) (syscfg sysctrl txfctrl : List Nat) : State :=
  { _ss := ss
    _syscfg := syscfg
    _sysctrl := sysctrl
    _frameCheckSuppressed := false
    _extendedFrameLength := false
    _txfctrl := txfctrl
    _deviceMode := IDLE_MODE
    bus := [] }

/-! ## Configuration and session operations -/

/-- `DW1000::suppressFrameCheck()`. -/
def suppressFrameCheck (st : State) : State :=
  { st with
    _sysctrl := st._sysctrl.set 0 (bitSet (st._sysctrl.getD 0 0) SFCST_BIT)
    _frameCheckSuppressed := true }

/-- `DW1000::transmitRate(byte rate)`. -/
def transmitRate (st : State) (rate : Nat) : State :=
  let rate := (rate &&& 0x03) % 256
  let rate := if rate ≥ 0x03 then TX_RATE_6800KBPS else rate
  { st with
    _txfctrl := st._txfctrl.set 1
      ((st._txfctrl.getD 1 0 ||| (((rate <<< 5) &&& 0xFF) % 256)) % 256) }

/-- `DW1000::newTransmit()`. -/
def newTransmit (st : State) : State :=
  { st with
    _sysctrl := List.replicate LEN_SYS_CTRL 0
    _txfctrl := List.replicate LEN_TX_FCTRL 0
    _deviceMode := TX_MODE
    _frameCheckSuppressed := false }

/-- The value an integer takes when it is held in an `int`: 32 bits, two's
complement (the width of `int` on the host of the `DEBUG` build and on 32-bit
boards; on a board with 16-bit `int` the same wrap-around happens at `2 ^ 15`).
A sum that leaves the range wraps around. -/
def wrapInt (x : Int) : Int :=
  (x + 2147483648) % 4294967296 - 2147483648

/-- The 32 bits of an `int`, as a natural number. -/
def intBits (x : Int) : Nat :=
  (x % 4294967296).toNat

/-- `DW1000::setData(byte data[], int n)`. The argument is converted to `int`
on entry and `n += 2` wraps around in `int`. The loop of `writeBytes` runs
`n` times, no time for a negative `n`. `n & 0xFF` and `(n >> 8) & 0x07` are
taken on the bits of `n`; the mask `0x07` keeps bits 8-10, which an
arithmetic and a logical shift agree on. -/
def setData (st : State) (data : Nat → Nat) (n : Nat) : State :=
  let n : Int := wrapInt n
  let n : Int := if !st._frameCheckSuppressed then wrapInt (n + 2) else n
  if n > (LEN_TX_BUFFER : Int) then
    st
  else if (!st._extendedFrameLength && decide (n > (LEN_UWB_FRAMES : Int))) ||
      (st._extendedFrameLength && decide (n > (LEN_EXT_UWB_FRAMES : Int))) then
    st
  else
    let st := writeBytes st TX_BUFFER NO_SUB data n.toNat
    let st := { st with _txfctrl := st._txfctrl.set 0 ((intBits n &&& 0xFF) % 256) }
    { st with
      _txfctrl := st._txfctrl.set 1
        ((st._txfctrl.getD 1 0 ||| (((intBits n >>> 8) &&& 0x07) % 256)) % 256) }

/-- `DW1000::setFrameFilter(boolean val)`. The argument `shift` is the value
the uninitialised local of `setBit` holds during the call. -/
def setFrameFilter (shift : Nat) (st : State) (val : Bool) : State :=
  let st := { st with _syscfg := setBit shift st._syscfg LEN_SYS_CFG FFEN_BIT val }
  writeBytes st SYS_CFG NO_SUB (ptr st._syscfg) LEN_SYS_CFG

/-- `DW1000::setDoubleBuffering(boolean val)`. The argument `shift` is the
value the uninitialised local of `setBit` holds during the call. -/
def setDoubleBuffering (shift : Nat) (st : State) (val : Bool) : State :=
  let st := { st with _syscfg := setBit shift st._syscfg LEN_SYS_CFG RXAUTR_BIT (!val) }
  writeBytes st SYS_CFG NO_SUB (ptr st._syscfg) LEN_SYS_CFG

/-- `DW1000::setReceiverAutoReenable(boolean val)`. The argument `shift` is
the value the uninitialised local of `setBit` holds during the call. -/
def setReceiverAutoReenable (shift : Nat) (st : State) (val : Bool) : State :=
  let st := { st with _syscfg := setBit shift st._syscfg LEN_SYS_CFG DIS_DRXB_BIT val }
  writeBytes st SYS_CFG NO_SUB (ptr st._syscfg) LEN_SYS_CFG

/-- `DW1000::idle()`. -/
def idle (st : State) : State :=
  let st := { st with _sysctrl := List.replicate LEN_SYS_CTRL 0 }
  let st := { st with
    _sysctrl := st._sysctrl.set 0 (bitSet (st._sysctrl.getD 0 0) TRXOFF_BIT) }
  let st := { st with _deviceMode := IDLE_MODE }
  writeBytes st SYS_CTRL NO_SUB (ptr st._sysctrl) LEN_SYS_CTRL

/-- `DW1000::delayedTransceive(unsigned int delayNanos)`. The argument `shift`
is the value the uninitialised local of `setBit` holds during the call. -/
def delayedTransceive (shift : Nat) (st : State) (_delayNanos : Nat) : State :=
  if st._deviceMode = TX_MODE then
    { st with _sysctrl := setBit shift st._sysctrl LEN_SYS_CTRL TXDLYS_BIT true }
  else if st._deviceMode = RX_MODE then
    { st with _sysctrl := setBit shift st._sysctrl LEN_SYS_CTRL RXDLYS_BIT true }
  else
    st

/-- `DW1000::transmitFrameLength(byte dataLength)`, as defined in
`DW1000.cpp` (the header declares the parameter as `word`): the argument is
converted to a `byte` on entry. The arguments `shift0` and `shift1` are the
values the uninitialised local of `setBit` holds during the first and the
second call; `next` is the byte that follows the one-byte parameter
`dataLength` in memory, which the final two-byte write from `&dataLength`
transfers as well. -/
def transmitFrameLength (shift0 shift1 next : Nat) (st : State) (dataLength : Nat) : State :=
  let dataLength := dataLength % 256
  let syscfg :=
    if dataLength ≤ 127 then
      setBit shift1 (setBit shift0 st._syscfg LEN_SYS_CFG PHR_MODE_LSB false)
        LEN_SYS_CFG PHR_MODE_MSB false
    else
      setBit shift1 (setBit shift0 st._syscfg LEN_SYS_CFG PHR_MODE_LSB true)
        LEN_SYS_CFG PHR_MODE_MSB true
  let dataLength := if dataLength ≤ 127 then dataLength else (dataLength &&& 0xFF) % 256
  let st := { st with _syscfg := syscfg }
  let st := writeBytes st SYS_CFG NO_SUB (ptr st._syscfg) LEN_SYS_CFG
  writeBytes st TX_FCTRL NO_SUB (fun i => if i = 0 then dataLength else next) 2

/-- `DW1000::newReceive()`. -/
def newReceive (st : State) : State :=
  { st with
    _sysctrl := List.replicate LEN_SYS_CTRL 0
    _deviceMode := RX_MODE
    _frameCheckSuppressed := false }

/-- `DW1000::cancelTransmit()`. -/
def cancelTransmit (st : State) : State :=
  idle (newTransmit st)

/-- `DW1000::startTransmit()`. -/
def startTransmit (st : State) : State :=
  let st := { st with
    _sysctrl := st._sysctrl.set 0 (bitSet (st._sysctrl.getD 0 0) TXSTRT_BIT) }
  let st := writeBytes st TX_FCTRL NO_SUB (ptr st._txfctrl) LEN_TX_FCTRL
  let st := writeBytes st SYS_CTRL NO_SUB (ptr st._sysctrl) LEN_SYS_CTRL
  { st with _deviceMode := IDLE_MODE }

/-- `DW1000::isReceiveSuccess()`: the state after the read of the status
register, and the returned value. `resp i` is byte `i` of the chip's answer. -/
def isReceiveSuccess (st : State) (resp : Nat → Nat) : State × Bool :=
  let r := readBytes st SYS_STATUS resp LEN_SYS_STATUS
  let data := r.2
  let ldeErr := getBit data LEN_SYS_STATUS LDEERR_BIT
  let rxErr := getBit data LEN_SYS_STATUS RXFCE_BIT
  let rxDecodeErr := getBit data LEN_SYS_STATUS RXRFSL_BIT
  if ldeErr || rxErr || rxDecodeErr then
    (r.1, false)
  else
    let rxGood := getBit data LEN_SYS_STATUS RXFCG_BIT
    let ldeDone := getBit data LEN_SYS_STATUS LDEDONE_BIT
    if rxGood && ldeDone then
      (r.1, true)
    else
      (r.1, false)

/-- `DW1000::clearReceiveStatus()`. `resp i` is byte `i` of the chip's answer
to the read; `shift k` is the value the uninitialised local of `setBit` holds
during the `k`-th of the six calls. -/
def clearReceiveStatus (shift : Nat → Nat) (st : State) (resp : Nat → Nat) : State :=
  let r := readBytes st SYS_STATUS resp LEN_SYS_STATUS
  let data := r.2
  let data := setBit (shift 0) data LEN_SYS_STATUS RXDFR_BIT true
  let data := setBit (shift 1) data LEN_SYS_STATUS LDEDONE_BIT true
  let data := setBit (shift 2) data LEN_SYS_STATUS LDEERR_BIT true
  let data := setBit (shift 3) data LEN_SYS_STATUS RXFCE_BIT true
  let data := setBit (shift 4) data LEN_SYS_STATUS RXFCG_BIT true
  let data := setBit (shift 5) data LEN_SYS_STATUS RXRFSL_BIT true
  writeBytes r.1 SYS_STATUS NO_SUB (ptr data) LEN_SYS_STATUS

/-! ## Calibration constants of `DW1000.h` -/

def TX_CHANNEL_1 : Nat := 0x00005C40
def TX_CHANNEL_2 : Nat := 0x00045CA0
def TX_CHANNEL_3 : Nat := 0x00086CC0
def TX_CHANNEL_4 : Nat := 0x00045C80
def TX_CHANNEL_5 : Nat := 0x001E3FE0
def TX_CHANNEL_7 : Nat := 0x001E7DE0

def RX_RATE_110KBPS : Nat := 0x0A
def RX_RATE_850KBPS : Nat := 0x01
def RX_RATE_6800KBPS : Nat := 0x01

def RX_PULSE_FREQ_16MHz : Nat := 0x87
def RX_PULSE_FREQ_64MHz : Nat := 0x8D

def TX_PREAMBLE_LEN_64 : Nat := 0x01
def TX_PREAMBLE_LEN_128 : Nat := 0x05
def TX_PREAMBLE_LEN_256 : Nat := 0x09
def TX_PREAMBLE_LEN_512 : Nat := 0x0D
def TX_PREAMBLE_LEN_1024 : Nat := 0x02
def TX_PREAMBLE_LEN_1536 : Nat := 0x06
def TX_PREAMBLE_LEN_2048 : Nat := 0x0A
def TX_PREAMBLE_LEN_4096 : Nat := 0x03

def PLL_CONFIG_CH_1 : Nat := 0x09000407
def PLL_CONFIG_CH_2 : Nat := 0x08400508
def PLL_CONFIG_CH_3 : Nat := 0x08401009
def PLL_CONFIG_CH_4 : Nat := 0x08400508
def PLL_CONFIG_CH_5 : Nat := 0x0800041D
def PLL_CONFIG_CH_7 : Nat := 0x0800041D

def PLL_TUNE_CH_1 : Nat := 0x1E
def PLL_TUNE_CH_2 : Nat := 0x26
def PLL_TUNE_CH_3 : Nat := 0x5E
def PLL_TUNE_CH_4 : Nat := 0x26
def PLL_TUNE_CH_5 : Nat := 0xA6
def PLL_TUNE_CH_7 : Nat := 0xA6

def SFD_STD_RATE_110KBPS : Nat := 0x0A
def SFD_STD_RATE_850KBPS : Nat := 0x01

def DRX_TUNE_RATE_110KBPS : Nat := 0x64
def DRX_TUNE_RATE_850_6800KBPS : Nat := 0x20
def DRX_TUNE_RATE_6800KBPS : Nat := 0x10

def DRX_TUNE4H_PREAMBLE_SHORT : Nat := 0x10
def DRX_TUNE4H_PREAMBLE_LONG : Nat := 0x28

def PAC_8_PRF_16MHz : Nat := 0x311A002D
def PAC_8_PRF_64MHz : Nat := 0x313B006B
def PAC_16_PRF_16MHz : Nat := 0x331A0052
def PAC_16_PRF_64MHz : Nat := 0x333B00BE
def PAC_32_PRF_16MHz : Nat := 0x351A009A
def PAC_32_PRF_64MHz : Nat := 0x353B015E
def PAC_64_PRF_16MHz : Nat := 0x371A011D
def PAC_64_PRF_64MHz : Nat := 0x373B0296

def RX_ANALOG_STD : Nat := 0xD8
def RX_ANALOG_NSTD : Nat := 0xBC

def LDE_PRF_16MHz : Nat := 0x1607
def LDE_PRF_64MHz : Nat := 0x0607

def PGD_CH_1 : Nat := 0xC9
def PGD_CH_2 : Nat := 0xC2
def PGD_CH_3 : Nat := 0xC5
def PGD_CH_4 : Nat := 0x95
def PGD_CH_5 : Nat := 0xC0
def PGD_CH_7 : Nat := 0x93

/-! ## Transmit configuration, tuning and status operations -/

/-- `DW1000::pulseFrequency(byte freq)`. -/
def pulseFrequency (st : State) (freq : Nat) : State :=
  let freq := (freq &&& 0x03) % 256
  let freq := if freq = 0x00 ∨ freq ≥ 0x03 then TX_PULSE_FREQ_64MHZ else freq
  { st with
    _txfctrl := st._txfctrl.set 2 ((st._txfctrl.getD 2 0 ||| ((freq &&& 0xFF) % 256)) % 256) }

/-- `DW1000::preambleLength(byte prealen)`. -/
def preambleLength (st : State) (prealen : Nat) : State :=
  let prealen := (prealen &&& 0x0F) % 256
  { st with
    _txfctrl := st._txfctrl.set 2
      ((st._txfctrl.getD 2 0 ||| (((prealen <<< 2) &&& 0xFF) % 256)) % 256) }

/-- `DW1000::clearTransmitStatus()`: the body holds two comments (`FIXME impl`
and a commented-out `setBit` call) and no statement. -/
def clearTransmitStatus (st : State) : State :=
  st

/-- A local byte array as memory: `m i` is the byte at index `i`, also for
indices beyond the declared length. `store m i v` is `m[i] = v`, the value
being converted to a `byte`. -/
def store (m : Nat → Nat) (i v : Nat) : Nat → Nat :=
  fun j => if j = i then v % 256 else m j

/-- The pointer `&m[k]`. -/
def offsetPtr (m : Nat → Nat) (k : Nat) : Nat → Nat :=
  fun i => m (k + i)

/-- The `switch (channel)` of `DW1000::setRFChannel(short channel)`: the local
array `_chSettings` after it. The array is not initialised; `stack` is its
content (and that of the memory behind it) on entry. There is no `default`
label. -/
def setRFChannelSwitch (stack : Nat → Nat) (channel : Int) : Nat → Nat :=
  if channel = 1 then
    store (store (store (store (store stack 0 RX_ANALOG_STD) 1 TX_CHANNEL_1) 5 PGD_CH_1)
      7 PLL_CONFIG_CH_1) 11 PLL_TUNE_CH_1
  else if channel = 2 then
    store (store (store (store (store stack 0 RX_ANALOG_STD) 1 TX_CHANNEL_2) 5 PGD_CH_2)
      7 PLL_CONFIG_CH_2) 11 PLL_TUNE_CH_2
  else if channel = 3 then
    store (store (store (store (store stack 0 RX_ANALOG_STD) 1 TX_CHANNEL_3) 5 PGD_CH_3)
      7 PLL_CONFIG_CH_3) 11 PLL_TUNE_CH_3
  else if channel = 4 then
    store (store (store (store (store stack 0 RX_ANALOG_NSTD) 1 TX_CHANNEL_4) 5 PGD_CH_4)
      7 PLL_CONFIG_CH_4) 11 PLL_TUNE_CH_4
  else if channel = 5 then
    store (store (store (store (store stack 0 RX_ANALOG_STD) 1 TX_CHANNEL_5) 5 PGD_CH_5)
      7 PLL_CONFIG_CH_5) 11 PLL_TUNE_CH_5
  else if channel = 7 then
    store (store (store (store (store stack 0 RX_ANALOG_NSTD) 1 TX_CHANNEL_7) 5 PGD_CH_7)
      7 PLL_CONFIG_CH_7) 11 PLL_TUNE_CH_7
  else
    stack

/-- `DW1000::setRFChannel(short channel)`: the switch, then five writes from
the local array. -/
def setRFChannel (stack : Nat → Nat) (st : State) (channel : Int) : State :=
  let _chSettings := setRFChannelSwitch stack channel
  let st := writeBytes st RF_CONF SUB_B (offsetPtr _chSettings 0) 1
  let st := writeBytes st RF_CONF SUB_C (offsetPtr _chSettings 1) 4
  let st := writeBytes st TX_CAL SUB_B (offsetPtr _chSettings 5) 2
  let st := writeBytes st FS_CTRL SUB_7 (offsetPtr _chSettings 7) 4
  writeBytes st FS_CTRL SUB_B (offsetPtr _chSettings 11) 2

/-- `DW1000::tuneReceiver(byte rate, byte PRF, byte preamble, byte pac)`. The
local array `_rfTune` is not initialised; `stack` is its content (and that of
the memory behind it) on entry. In `switch (PRF)` the case
`RX_PULSE_FREQ_16MHz` ends with `break` after its assignments; the four
writes that follow the inner `switch (pac)` of the case `RX_PULSE_FREQ_64MHz`
stand before the brace that closes `switch (PRF)`, so they belong to that
case. `RX_RATE_6800KBPS` has the value of `RX_RATE_850KBPS`. -/
def tuneReceiver (stack : Nat → Nat) (st : State) (rate PRF preamble pac : Nat) : State :=
  let pac := (pac &&& 0x78) % 256
  let _rfTune :=
    if rate = RX_RATE_110KBPS then
      store (store stack 0 (SFD_STD_RATE_110KBPS &&& 0x00FF)) 2 (DRX_TUNE_RATE_110KBPS &&& 0x00FF)
    else if rate = RX_RATE_850KBPS then
      if preamble = TX_PREAMBLE_LEN_64 then
        store stack 2 (DRX_TUNE_RATE_6800KBPS &&& 0x00FF)
      else
        store stack 2 (DRX_TUNE_RATE_850_6800KBPS &&& 0x00FF)
    else
      stack
  let st := writeBytes st DRX_TUNE SUB_2 (offsetPtr _rfTune 0) 2
  let st := writeBytes st DRX_TUNE SUB_6 (offsetPtr _rfTune 2) 2
  if PRF = RX_PULSE_FREQ_16MHz then
    st
  else if PRF = RX_PULSE_FREQ_64MHz then
    let _rfTune := store _rfTune 4 (RX_PULSE_FREQ_64MHz &&& 0xFF)
    let _rfTune := store _rfTune 10 LDE_PRF_64MHz
    let _rfTune :=
      if pac = 8 then store _rfTune 6 PAC_8_PRF_64MHz
      else if pac = 16 then store _rfTune 6 PAC_16_PRF_64MHz
      else if pac = 32 then store _rfTune 6 PAC_32_PRF_64MHz
      else if pac = 64 then store _rfTune 6 PAC_64_PRF_64MHz
      else _rfTune
    let st := writeBytes st DRX_TUNE SUB_4 (offsetPtr _rfTune 4) 2
    let st := writeBytes st DRX_TUNE SUB_8 (offsetPtr _rfTune 6) 4
    let st := writeBytes st LDE_IF SUB_1806 (offsetPtr _rfTune 10) 2
    let _rfTune :=
      if preamble = TX_PREAMBLE_LEN_64 then
        store _rfTune 12 (DRX_TUNE4H_PREAMBLE_SHORT &&& 0x00FF)
      else
        store _rfTune 12 (DRX_TUNE4H_PREAMBLE_LONG &&& 0x00FF)
    writeBytes st DRX_TUNE SUB_26 (offsetPtr _rfTune 12) 2
  else
    st

/-! ## The remaining public operations -/

/-- One `case` of `DW1000::setDefaultMode`: the five calls it makes, in
order. -/
def setDefaultModeCase (shift0 shift1 next : Nat) (stack : Nat → Nat) (st : State)
    (txRate txFreq txPreamble length rxRate rxFreq rxPreamble pac : Nat) : State :=
  let st := transmitRate st txRate
  let st := pulseFrequency st txFreq
  let st := preambleLength st txPreamble
  let st := transmitFrameLength shift0 shift1 next st length
  tuneReceiver stack st rxRate rxFreq rxPreamble pac

/-- `DW1000::setDefaultMode(short MODE)`. The arguments before `st` are the
indeterminate values `transmitFrameLength` and `tuneReceiver` take. -/
def setDefaultMode (shift0 shift1 next : Nat) (stack : Nat → Nat) (st : State)
    (MODE : Int) : State :=
  if MODE = 1 then
    setDefaultModeCase shift0 shift1 next stack st
      TX_RATE_110KBPS TX_PULSE_FREQ_16MHZ TX_PREAMBLE_LEN_1024 12
      RX_RATE_110KBPS RX_PULSE_FREQ_16MHz TX_PREAMBLE_LEN_1024 32
  else if MODE = 2 then
    setDefaultModeCase shift0 shift1 next stack st
      TX_RATE_6800KBPS TX_PULSE_FREQ_16MHZ TX_PREAMBLE_LEN_128 12
      RX_RATE_6800KBPS RX_PULSE_FREQ_16MHz TX_PREAMBLE_LEN_128 8
  else if MODE = 3 then
    setDefaultModeCase shift0 shift1 next stack st
      TX_RATE_110KBPS TX_PULSE_FREQ_16MHZ TX_PREAMBLE_LEN_1024 30
      RX_RATE_110KBPS RX_PULSE_FREQ_16MHz TX_PREAMBLE_LEN_1024 32
  else if MODE = 4 then
    setDefaultModeCase shift0 shift1 next stack st
      TX_RATE_6800KBPS TX_PULSE_FREQ_16MHZ TX_PREAMBLE_LEN_128 30
      RX_RATE_6800KBPS RX_PULSE_FREQ_16MHz TX_PREAMBLE_LEN_128 8
  else if MODE = 5 then
    setDefaultModeCase shift0 shift1 next stack st
      TX_RATE_6800KBPS TX_PULSE_FREQ_16MHZ TX_PREAMBLE_LEN_1024 1023
      RX_RATE_110KBPS RX_PULSE_FREQ_16MHz TX_PREAMBLE_LEN_1024 32
  else if MODE = 6 then
    setDefaultModeCase shift0 shift1 next stack st
      TX_RATE_6800KBPS TX_PULSE_FREQ_16MHZ TX_PREAMBLE_LEN_128 127
      RX_RATE_6800KBPS RX_PULSE_FREQ_16MHz TX_PREAMBLE_LEN_128 8
  else if MODE = 7 then
    setDefaultModeCase shift0 shift1 next stack st
      TX_RATE_110KBPS TX_PULSE_FREQ_16MHZ TX_PREAMBLE_LEN_1024 1023
      RX_RATE_110KBPS RX_PULSE_FREQ_16MHz TX_PREAMBLE_LEN_1024 32
  else if MODE = 8 then
    setDefaultModeCase shift0 shift1 next stack st
      TX_RATE_110KBPS TX_PULSE_FREQ_16MHZ TX_PREAMBLE_LEN_1024 127
      RX_RATE_110KBPS RX_PULSE_FREQ_16MHz TX_PREAMBLE_LEN_1024 32
  else if MODE = 9 then
    setDefaultModeCase shift0 shift1 next stack st
      TX_RATE_110KBPS TX_PULSE_FREQ_64MHZ TX_PREAMBLE_LEN_1024 12
      RX_RATE_110KBPS RX_PULSE_FREQ_64MHz TX_PREAMBLE_LEN_1024 32
  else if MODE = 10 then
    setDefaultModeCase shift0 shift1 next stack st
      TX_RATE_6800KBPS TX_PULSE_FREQ_64MHZ TX_PREAMBLE_LEN_128 12
      RX_RATE_6800KBPS RX_PULSE_FREQ_64MHz TX_PREAMBLE_LEN_128 8
  else if MODE = 11 then
    setDefaultModeCase shift0 shift1 next stack st
      TX_RATE_110KBPS TX_PULSE_FREQ_64MHZ TX_PREAMBLE_LEN_1024 30
      RX_RATE_110KBPS RX_PULSE_FREQ_64MHz TX_PREAMBLE_LEN_1024 32
  else if MODE = 12 then
    setDefaultModeCase shift0 shift1 next stack st
      TX_RATE_6800KBPS TX_PULSE_FREQ_64MHZ TX_PREAMBLE_LEN_128 30
      RX_RATE_6800KBPS RX_PULSE_FREQ_64MHz TX_PREAMBLE_LEN_128 8
  else if MODE = 13 then
    setDefaultModeCase shift0 shift1 next stack st
      TX_RATE_6800KBPS TX_PULSE_FREQ_16MHZ TX_PREAMBLE_LEN_1024 1023
      RX_RATE_6800KBPS RX_PULSE_FREQ_64MHz TX_PREAMBLE_LEN_1024 32
  else if MODE = 14 then
    setDefaultModeCase shift0 shift1 next stack st
      TX_RATE_6800KBPS TX_PULSE_FREQ_64MHZ TX_PREAMBLE_LEN_128 127
      RX_RATE_6800KBPS RX_PULSE_FREQ_64MHz TX_PREAMBLE_LEN_128 8
  else if MODE = 15 then
    setDefaultModeCase shift0 shift1 next stack st
      TX_RATE_110KBPS TX_PULSE_FREQ_64MHZ TX_PREAMBLE_LEN_1024 1023
      RX_RATE_110KBPS RX_PULSE_FREQ_64MHz TX_PREAMBLE_LEN_1024 32
  else if MODE = 16 then
    setDefaultModeCase shift0 shift1 next stack st
      TX_RATE_110KBPS TX_PULSE_FREQ_64MHZ TX_PREAMBLE_LEN_1024 127
      RX_RATE_110KBPS RX_PULSE_FREQ_64MHz TX_PREAMBLE_LEN_1024 32
  else
    st

/-- `DW1000::getSystemConfiguration()`: the array `_syscfg` (the caller
receives a pointer to it). -/
def getSystemConfiguration (st : State) : List Nat :=
  st._syscfg

/-- `DW1000::getChipSelect()`. -/
def getChipSelect (st : State) : Nat :=
  st._ss

/-- `DW1000::readDeviceIdentifier()`: the state after the read, and the three
numbers printed into the returned string (model, version, revision). -/
def readDeviceIdentifier (st : State) (resp : Nat → Nat) : State × (Nat × Nat × Nat) :=
  let r := readBytes st DEV_ID resp LEN_DEV_ID
  (r.1, (r.2.getD 1 0, (r.2.getD 0 0) >>> 4, (r.2.getD 0 0) &&& 0x0F))

/-- `DW1000::readSystemConfiguration(byte data[])`: the state after the read,
and the caller's array. -/
def readSystemConfiguration (st : State) (resp : Nat → Nat) : State × List Nat :=
  readBytes st SYS_CFG resp LEN_SYS_CFG

/-- `DW1000::loadSystemConfiguration()`: `readSystemConfiguration(_syscfg)`. -/
def loadSystemConfiguration (st : State) (resp : Nat → Nat) : State :=
  let r := readSystemConfiguration st resp
  { r.1 with _syscfg := r.2 }

/-- `DW1000::waitForResponse(boolean val)`. The argument `shift` is the value
the uninitialised local of `setBit` holds during the call. -/
def waitForResponse (shift : Nat) (st : State) (val : Bool) : State :=
  { st with _sysctrl := setBit shift st._sysctrl LEN_SYS_CTRL WAIT4RESP_BIT val }

/-- `DW1000::startReceive()`. The argument `shift` is the value the
uninitialised local of `setBit` holds during the call. -/
def startReceive (shift : Nat) (st : State) : State :=
  let st := { st with _sysctrl := setBit shift st._sysctrl LEN_SYS_CTRL RXENAB_BIT true }
  writeBytes st SYS_CTRL NO_SUB (ptr st._sysctrl) LEN_SYS_CTRL

/-- `DW1000::cancelReceive()`. -/
def cancelReceive (st : State) : State :=
  idle (newReceive st)

/-- `DW1000::setDefaults()`. -/
def setDefaults (st : State) : State :=
  if st._deviceMode = TX_MODE then
    let st := transmitRate st TX_RATE_6800KBPS
    let st := pulseFrequency st TX_PULSE_FREQ_64MHZ
    preambleLength st TX_PREAMBLE_LEN_1024
  else
    st

/-- `DW1000::isTransmitDone()`. -/
def isTransmitDone (st : State) (resp : Nat → Nat) : State × Bool :=
  let r := readBytes st SYS_STATUS resp LEN_SYS_STATUS
  (r.1, getBit r.2 LEN_SYS_STATUS TXFRS_BIT)

/-- `DW1000::isLDEDone()`. -/
def isLDEDone (st : State) (resp : Nat → Nat) : State × Bool :=
  let r := readBytes st SYS_STATUS resp LEN_SYS_STATUS
  (r.1, getBit r.2 LEN_SYS_STATUS LDEDONE_BIT)

/-- `DW1000::isReceiveDone()`. -/
def isReceiveDone (st : State) (resp : Nat → Nat) : State × Bool :=
  let r := readBytes st SYS_STATUS resp LEN_SYS_STATUS
  (r.1, getBit r.2 LEN_SYS_STATUS RXDFR_BIT)

/-- A call of one public member function defined in `DW1000.cpp`, with its
arguments and with the values the embedding takes as indeterminate (the
uninitialised local of `setBit`, the content of uninitialised local arrays,
the chip's answer to a read). `storeSystemConfiguration i v` is the caller
storing `v` into byte `i` of the array whose address
`getSystemConfiguration()` returned. `getData` and `setNASA_RMC_2015` are
declared in `DW1000.h` and defined nowhere; they are not calls. -/
inductive Call where
  | setDefaultMode (shift0 shift1 next : Nat) (stack : Nat → Nat) (MODE : Int)
  | getChipSelect
  | readDeviceIdentifier (resp : Nat → Nat)
  | getSystemConfiguration
  | storeSystemConfiguration (i v : Nat)
  | loadSystemConfiguration (resp : Nat → Nat)
  | readSystemConfiguration (resp : Nat → Nat)
  | setFrameFilter (shift : Nat) (val : Bool)
  | setDoubleBuffering (shift : Nat) (val : Bool)
  | setReceiverAutoReenable (shift : Nat) (val : Bool)
  | suppressFrameCheck
  | delayedTransceive (shift : Nat) (delayNanos : Nat)
  | transmitRate (rate : Nat)
  | pulseFrequency (freq : Nat)
  | preambleLength (prealen : Nat)
  | transmitFrameLength (shift0 shift1 next : Nat) (dataLength : Nat)
  | tuneReceiver (stack : Nat → Nat) (rate PRF preamble pac : Nat)
  | setRFChannel (stack : Nat → Nat) (channel : Int)
  | waitForResponse (shift : Nat) (val : Bool)
  | setData (data : Nat → Nat) (n : Nat)
  | setDefaults
  | isLDEDone (resp : Nat → Nat)
  | isTransmitDone (resp : Nat → Nat)
  | isReceiveDone (resp : Nat → Nat)
  | isReceiveSuccess (resp : Nat → Nat)
  | clearReceiveStatus (shift : Nat → Nat) (resp : Nat → Nat)
  | clearTransmitStatus
  | idle
  | newReceive
  | startReceive (shift : Nat)
  | cancelReceive
  | newTransmit
  | startTransmit
  | cancelTransmit

/-- The driver state after one call. -/
def perform (st : State) : Call → State
  | .setDefaultMode shift0 shift1 next stack MODE =>
      DW1000.setDefaultMode shift0 shift1 next stack st MODE
  | .getChipSelect => st
  | .readDeviceIdentifier resp => (DW1000.readDeviceIdentifier st resp).1
  | .getSystemConfiguration => st
  | .storeSystemConfiguration i v =>
      if i < LEN_SYS_CFG then { st with _syscfg := st._syscfg.set i (v % 256) } else st
  | .loadSystemConfiguration resp => DW1000.loadSystemConfiguration st resp
  | .readSystemConfiguration resp => (DW1000.readSystemConfiguration st resp).1
  | .setFrameFilter shift val => DW1000.setFrameFilter shift st val
  | .setDoubleBuffering shift val => DW1000.setDoubleBuffering shift st val
  | .setReceiverAutoReenable shift val => DW1000.setReceiverAutoReenable shift st val
  | .suppressFrameCheck => DW1000.suppressFrameCheck st
  | .delayedTransceive shift delayNanos => DW1000.delayedTransceive shift st delayNanos
  | .transmitRate rate => DW1000.transmitRate st rate
  | .pulseFrequency freq => DW1000.pulseFrequency st freq
  | .preambleLength prealen => DW1000.preambleLength st prealen
  | .transmitFrameLength shift0 shift1 next dataLength =>
      DW1000.transmitFrameLength shift0 shift1 next st dataLength
  | .tuneReceiver stack rate PRF preamble pac =>
      DW1000.tuneReceiver stack st rate PRF preamble pac
  | .setRFChannel stack channel => DW1000.setRFChannel stack st channel
  | .waitForResponse shift val => DW1000.waitForResponse shift st val
  | .setData data n => DW1000.setData st data n
  | .setDefaults => DW1000.setDefaults st
  | .isLDEDone resp => (DW1000.isLDEDone st resp).1
  | .isTransmitDone resp => (DW1000.isTransmitDone st resp).1
  | .isReceiveDone resp => (DW1000.isReceiveDone st resp).1
  | .isReceiveSuccess resp => (DW1000.isReceiveSuccess st resp).1
  | .clearReceiveStatus shift resp => DW1000.clearReceiveStatus shift st resp
  | .clearTransmitStatus => DW1000.clearTransmitStatus st
  | .idle => DW1000.idle st
  | .newReceive => DW1000.newReceive st
  | .startReceive shift => DW1000.startReceive shift st
  | .cancelReceive => DW1000.cancelReceive st
  | .newTransmit => DW1000.newTransmit st
  | .startTransmit => DW1000.startTransmit st
  | .cancelTransmit => DW1000.cancelTransmit st

/-- The driver state after a sequence of calls, the first of the list
first. -/
def performAll (st : State) (calls : List Call) : State :=
  calls.foldl perform st

/-- Bit position `k` of a register image: bit `k % 8` of byte `k / 8`. -/
def bitAt (img : List Nat) (k : Nat) : Bool :=
  (img.getD (k / 8) 0).testBit (k % 8)

/-- An image of `n` bytes: `n` entries, each below 256. -/
def isImage (n : Nat) (img : List Nat) : Prop :=
  img.length = n ∧ ∀ b ∈ img, b < 256

instance (n : Nat) (img : List Nat) : Decidable (isImage n img) :=
  inferInstanceAs (Decidable (img.length = n ∧ ∀ b ∈ img, b < 256))

end DW1000

/-! ## Theorems -/

namespace DW1000

/-- C1 (fails on the code). `setBit` never computes `shift = bit % 8`: on the
one-byte image `[0]`, with the uninitialised local holding `0`,
`setBit(img, 1, 1, true)` sets bit 0 instead of bit 1, so `getBit(img, 1, 1)`
is still false and bit 0, which was clear, is now set. Whatever value the
uninitialised local holds, some bit position of the one-byte image is not set
by `setBit`. -/
theorem setBit_getBit_uninitialised_shift :
    getBit (setBit 0 [0] 1 1 true) 1 1 = false ∧
    getBit [0] 1 0 = false ∧
    getBit (setBit 0 [0] 1 1 true) 1 0 = true ∧
    ∀ shift : Nat, ∃ b, b < 8 * 1 ∧ getBit (setBit shift [0] 1 b true) 1 b = false := by
  refine ⟨by decide, by decide, by decide, ?_⟩
  intro shift
  rcases Nat.eq_zero_or_pos shift with h | h
  · subst h
    exact ⟨1, by decide, by decide⟩
  · refine ⟨0, by decide, ?_⟩
    obtain ⟨k, rfl⟩ : ∃ k, shift = k + 1 := ⟨shift - 1, by omega⟩
    have h2 : ((1 <<< (k + 1)) % 2 ^ 32) % 256 % 2 = 0 := by
      rw [Nat.shiftLeft_eq, Nat.pow_succ]
      omega
    simp only [getBit, setBit, bitSet, bitRead]
    simp
    omega

/-- C2 (as amended). For a bit position `b ≥ 8n`, `setBit` returns with the
image unchanged and `getBit` returns `false`; nothing else reaches the
caller. -/
theorem setBit_getBit_out_of_range (shift : Nat) (data : List Nat) (n b : Nat)
    (val : Bool) (h : 8 * n ≤ b) :
    setBit shift data n b val = data ∧ getBit data n b = false := by
  have hidx : b / 8 ≥ n := by omega
  simp [setBit, getBit, hidx]

theorem setBit_getBit_out_of_range_witness :
    8 * 1 ≤ 8 ∧ setBit 3 [0xA5] 1 8 true = [0xA5] ∧ getBit [0xA5] 1 8 = false :=
  ⟨by decide, setBit_getBit_out_of_range 3 [0xA5] 1 8 true (by decide)⟩

/-- C2 (fails as stated). An out-of-range `getBit` is not distinguishable
from a successful one: on the one-byte image `[0]`, position 8 (out of range)
and position 0 (in range, bit clear) both return `false`; an out-of-range
`setBit` returns the image it was given, as does an in-range `setBit` of a
bit that already has the value. -/
theorem getBit_out_of_range_not_signalled :
    getBit [0] 1 8 = false ∧ getBit [0] 1 0 = false ∧
    setBit 0 [1] 1 8 true = [1] ∧ setBit 0 [1] 1 0 true = [1] := by
  decide

/-- `bitRead` is the bit test of the natural number. -/
theorem bitRead_ne_zero (x j : Nat) : (bitRead x j != 0) = x.testBit j := by
  unfold bitRead Nat.testBit
  rw [Nat.and_comm]

/-- `bitSet` on a byte, for a bit index below 8: the bit is set, the others
are kept. -/
theorem testBit_bitSet (x s j : Nat) (hs : s < 8) (hj : j < 8) :
    (bitSet x s).testBit j = (x.testBit j || decide (s = j)) := by
  have hpow : (1 <<< s) % 2 ^ 32 = 2 ^ s := by
    rw [Nat.shiftLeft_eq, Nat.one_mul]
    apply Nat.mod_eq_of_lt
    exact Nat.pow_lt_pow_right (by decide) (by omega)
  have e256 : (256 : Nat) = 2 ^ 8 := by norm_num
  unfold bitSet
  rw [hpow, e256, Nat.testBit_mod_two_pow, Nat.testBit_or, Nat.testBit_two_pow]
  simp [hj]

/-- Were the local `shift` to hold `bit % 8`, `setBit` with `val = true` would
set the addressed bit and leave every other bit as it was. -/
theorem setBit_getBit_of_shift (data : List Nat) (n b : Nat) (hlen : data.length = n)
    (hb : b < 8 * n) :
    getBit (setBit (b % 8) data n b true) n b = true ∧
    ∀ b2, b2 ≠ b → getBit (setBit (b % 8) data n b true) n b2 = getBit data n b2 := by
  have hidx : ¬ b / 8 ≥ n := by omega
  have hlt : b / 8 < data.length := by omega
  have hs : b % 8 < 8 := Nat.mod_lt _ (by decide)
  constructor
  · simp only [getBit, setBit, hidx, if_false, if_true, bitRead_ne_zero]
    rw [List.getD_eq_getElem?_getD, List.getElem?_set]
    simp only [if_true, hlt, Option.getD_some]
    rw [testBit_bitSet _ _ _ hs hs]
    simp
  · intro b2 hne
    simp only [getBit, setBit, hidx, if_false, if_true]
    by_cases h2 : b2 / 8 ≥ n
    · simp [h2]
    · simp only [h2, if_false, bitRead_ne_zero]
      have hs2 : b2 % 8 < 8 := Nat.mod_lt _ (by decide)
      by_cases hsame : b / 8 = b2 / 8
      · have hmod : b % 8 ≠ b2 % 8 := by omega
        rw [List.getD_eq_getElem?_getD, List.getElem?_set]
        simp only [hsame, if_true]
        have hlt2 : b2 / 8 < data.length := by omega
        simp only [hlt2, if_true, Option.getD_some]
        rw [← hsame, testBit_bitSet _ _ _ hs hs2, hsame]
        simp [hmod, List.getD_eq_getElem?_getD]
      · rw [List.getD_eq_getElem?_getD, List.getElem?_set]
        simp [hsame, List.getD_eq_getElem?_getD]

/-! ### Register transaction layer -/

/-- Setting bit 7 of the low byte of `s` gives bit 7 on top of the low seven
bits of `s`. -/
theorem lor_low_byte (s : Nat) : (0x80 ||| (s % 256)) % 256 = 0x80 ||| (s &&& 0x7F) := by
  apply Nat.eq_of_testBit_eq
  intro i
  have e256 : (256 : Nat) = 2 ^ 8 := by norm_num
  have e128 : (0x80 : Nat) = 2 ^ 7 := by norm_num
  have e127 : (0x7F : Nat) = 2 ^ 7 - 1 := by norm_num
  rw [e256, e128, e127]
  simp only [Nat.testBit_mod_two_pow, Nat.testBit_or, Nat.testBit_and, Nat.testBit_two_pow,
    Nat.testBit_two_pow_sub_one]
  by_cases h7 : 7 = i
  · subst h7; simp
  · by_cases h8 : i < 8
    · have : i < 7 := by omega
      simp [h7, h8, this]
    · have : ¬ i < 7 := by omega
      simp [h7, h8, this]

/-- C3. For a sub-address `s` in `0..16383` the header `writeBytes` builds has
1 byte when `s = 0`, 2 bytes when `1 ≤ s < 128`, header byte 1 then being `s`,
and 3 bytes when `s ≥ 128`; sub-address 0 gives 1 byte, 42 gives 2 bytes with
byte 1 equal to 42, 300 gives 3 bytes. -/
theorem writeBytesHeader_length (cmd s : Nat) (hs : s ≤ 16383) :
    (s = 0 → (writeBytesHeader cmd s).length = 1) ∧
    (1 ≤ s ∧ s < 128 →
      (writeBytesHeader cmd s).length = 2 ∧ (writeBytesHeader cmd s)[1]? = some s) ∧
    (128 ≤ s → (writeBytesHeader cmd s).length = 3) ∧
    (writeBytesHeader cmd 0).length = 1 ∧
    (writeBytesHeader cmd 42).length = 2 ∧ (writeBytesHeader cmd 42)[1]? = some 42 ∧
    (writeBytesHeader cmd 300).length = 3 := by
  refine ⟨?_, ?_, ?_, by simp [writeBytesHeader, NO_SUB], by simp [writeBytesHeader, NO_SUB],
    by simp [writeBytesHeader, NO_SUB], by simp [writeBytesHeader, NO_SUB]⟩
  · intro h0
    simp [writeBytesHeader, NO_SUB, h0]
  · rintro ⟨h1, h2⟩
    have hne : s ≠ 0 := by omega
    have hmod : s % 256 = s := by omega
    simp [writeBytesHeader, NO_SUB, hne, h2, hmod]
  · intro h128
    have hne : s ≠ 0 := by omega
    have hnlt : ¬ s < 128 := by omega
    simp [writeBytesHeader, NO_SUB, hne, hnlt]

theorem writeBytesHeader_length_witness :
    (27 : Nat) ≤ 16383 ∧
    ((27 = 0 → (writeBytesHeader 0x0D 27).length = 1) ∧
    (1 ≤ 27 ∧ 27 < 128 →
      (writeBytesHeader 0x0D 27).length = 2 ∧ (writeBytesHeader 0x0D 27)[1]? = some 27) ∧
    (128 ≤ 27 → (writeBytesHeader 0x0D 27).length = 3) ∧
    (writeBytesHeader 0x0D 0).length = 1 ∧
    (writeBytesHeader 0x0D 42).length = 2 ∧ (writeBytesHeader 0x0D 42)[1]? = some 42 ∧
    (writeBytesHeader 0x0D 300).length = 3) :=
  ⟨by decide, writeBytesHeader_length 0x0D 27 (by decide)⟩

/-- C4. For a sub-address `s` with `128 ≤ s ≤ 16383` the header is three
bytes: the command byte, then `0x80 OR (s AND 0x7F)`, then `s >> 7`. -/
theorem writeBytesHeader_extended (cmd s : Nat) (h1 : 128 ≤ s) (h2 : s ≤ 16383) :
    writeBytesHeader cmd s =
      [(WRITE_SUB ||| cmd) % 256, 0x80 ||| (s &&& 0x7F), s >>> 7] := by
  have hne : s ≠ 0 := by omega
  have hnlt : ¬ s < 128 := by omega
  have hhi : (s >>> 7) % 256 = s >>> 7 := by
    rw [Nat.shiftRight_eq_div_pow]
    omega
  simp only [writeBytesHeader, NO_SUB, hne, hnlt, if_false, WRITE, lor_low_byte, hhi]

theorem writeBytesHeader_extended_witness :
    (128 : Nat) ≤ 0x1806 ∧ (0x1806 : Nat) ≤ 16383 ∧
    writeBytesHeader LDE_IF 0x1806 =
      [(WRITE_SUB ||| LDE_IF) % 256, 0x80 ||| (0x1806 &&& 0x7F), 0x1806 >>> 7] :=
  ⟨by decide, by decide, writeBytesHeader_extended LDE_IF 0x1806 (by decide) (by decide)⟩

/-- The three command bytes, for every 6-bit register code. -/
theorem header_command_bits : ∀ c < 64,
    ((0x80 ||| c) % 256 = 0x80 ||| c ∧ ((0x80 ||| c).testBit 7 = true ∧
      (0x80 ||| c).testBit 6 = false ∧ (0x80 ||| c) &&& 0x3F = c)) ∧
    ((0xC0 ||| c) % 256 = 0xC0 ||| c ∧ ((0xC0 ||| c).testBit 7 = true ∧
      (0xC0 ||| c).testBit 6 = true ∧ (0xC0 ||| c) &&& 0x3F = c)) ∧
    ((0x00 ||| c) % 256 = c ∧ c.testBit 7 = false ∧ c &&& 0x3F = c) := by
  decide

/-- C5. For a 6-bit register code `c`: the command byte of a write is
`0x80 | c` without a sub-address and `0xC0 | c` with one, so bit 7 is set,
bit 6 is set exactly when a sub-address is requested, and the low 6 bits are
`c`; the command byte of a read has bit 7 clear and low 6 bits `c`. -/
theorem command_byte (c s : Nat) (hc : c < 64) :
    (writeBytesHeader c s)[0]? = some (if s = NO_SUB then 0x80 ||| c else 0xC0 ||| c) ∧
    (∀ w, (writeBytesHeader c s)[0]? = some w →
      w.testBit 7 = true ∧ (w.testBit 6 = true ↔ s ≠ NO_SUB) ∧ w &&& 0x3F = c) ∧
    (readBytesCommand c).testBit 7 = false ∧ readBytesCommand c &&& 0x3F = c := by
  obtain ⟨⟨hw, hw7, hw6, hwl⟩, ⟨hs, hs7, hs6, hsl⟩, ⟨hr, hr7, hrl⟩⟩ := header_command_bits c hc
  have hhead : (writeBytesHeader c s)[0]? =
      some (if s = NO_SUB then 0x80 ||| c else 0xC0 ||| c) := by
    by_cases h0 : s = NO_SUB
    · simp [writeBytesHeader, h0, WRITE, hw]
    · by_cases h128 : s < 128
      · simp [writeBytesHeader, h0, h128, WRITE_SUB, hs]
      · simp [writeBytesHeader, h0, h128, WRITE_SUB, hs]
  refine ⟨hhead, ?_, ?_, ?_⟩
  · intro w hwv
    rw [hhead] at hwv
    have hwe := Option.some.inj hwv
    by_cases h0 : s = NO_SUB
    · rw [if_pos h0] at hwe
      subst hwe
      simp [h0, hw7, hw6, hwl]
    · rw [if_neg h0] at hwe
      subst hwe
      simp [h0, hs7, hs6, hsl]
  · simp only [readBytesCommand, READ, hr, hr7]
  · simp only [readBytesCommand, READ, hr, hrl]

theorem command_byte_witness :
    (0x0D : Nat) < 64 ∧
    ((writeBytesHeader 0x0D 7)[0]? = some (if 7 = NO_SUB then 0x80 ||| 0x0D else 0xC0 ||| 0x0D) ∧
    (∀ w, (writeBytesHeader 0x0D 7)[0]? = some w →
      w.testBit 7 = true ∧ (w.testBit 6 = true ↔ 7 ≠ NO_SUB) ∧ w &&& 0x3F = 0x0D) ∧
    (readBytesCommand 0x0D).testBit 7 = false ∧ readBytesCommand 0x0D &&& 0x3F = 0x0D) :=
  ⟨by decide, command_byte 0x0D 7 (by decide)⟩

/-! ### `setData` and `transmitRate` -/

/-- In the range of `int`, conversion keeps the value. -/
theorem wrapInt_of_le (n : Nat) (h : n ≤ 2147483647) : wrapInt (n : Int) = (n : Int) := by
  unfold wrapInt
  omega

/-- The bits of a non-negative `int` are the number itself. -/
theorem intBits_natCast (n : Nat) (h : n ≤ 2147483647) : intBits (n : Int) = n := by
  unfold intBits
  omega

/-- While `n + 2` stays in the range of `int`, the total `setData` computes is
`n + 2` with the frame check enabled and `n` with it suppressed. -/
theorem setData_total (st : State) (n : Nat) (hn : n ≤ 2147483645) :
    (if (!st._frameCheckSuppressed) = true then wrapInt (wrapInt (n : Int) + 2)
      else wrapInt (n : Int)) =
      ((if st._frameCheckSuppressed then n else n + 2 : Nat) : Int) := by
  rw [wrapInt_of_le n (by omega)]
  cases st._frameCheckSuppressed
  · have h2 := wrapInt_of_le (n + 2) (by omega)
    simpa using h2
  · simp

/-- When the total length is above the ceiling of the frame mode and `n + 2`
stays in the range of `int`, `setData` returns at one of its two guards and
the state is untouched. -/
theorem setData_of_rejected (st : State) (data : Nat → Nat) (n : Nat)
    (hn : n ≤ 2147483645)
    (h : (if st._extendedFrameLength then 1023 else 127) <
      (if st._frameCheckSuppressed then n else n + 2)) :
    setData st data n = st := by
  have hT := setData_total st n hn
  generalize (if st._frameCheckSuppressed then n else n + 2) = L at h hT
  unfold setData
  simp only [LEN_TX_BUFFER, LEN_UWB_FRAMES, LEN_EXT_UWB_FRAMES, hT]
  split
  · rfl
  · split
    · rfl
    · rename_i h1 h2
      exfalso
      cases he : st._extendedFrameLength <;> simp [he] at h h2 <;> omega

/-- When the total length `L` is within the ceiling of the frame mode,
`setData` writes `L` bytes to the transmit buffer register and stores the
length into bytes 0 and 1 of the transmit-frame-control image. -/
theorem setData_of_accepted (st : State) (data : Nat → Nat) (n L : Nat)
    (hL : L = if st._frameCheckSuppressed then n else n + 2)
    (h : L ≤ (if st._extendedFrameLength then 1023 else 127)) :
    setData st data n =
      { st with
        bus := st.bus ++ [Transaction.write [0x89] ((List.range L).map data)]
        _txfctrl := (st._txfctrl.set 0 (L % 256)).set 1
          ((st._txfctrl.getD 1 0 ||| ((L >>> 8) &&& 0x07)) % 256) } := by
  have hL1023 : L ≤ 1023 := by
    split at h <;> omega
  have hn : n ≤ 2147483645 := by
    rw [hL] at hL1023
    split at hL1023 <;> omega
  have hT := setData_total st n hn
  rw [← hL] at hT
  have hbits : intBits (L : Int) = L := intBits_natCast L (by omega)
  have hmask : L &&& 0xFF = L % 256 := Nat.and_pow_two_sub_one_eq_mod L 8
  have hhi : ((L >>> 8) &&& 0x07) % 256 = (L >>> 8) &&& 0x07 := by
    have : (L >>> 8) &&& 0x07 ≤ 0x07 := Nat.and_le_right
    omega
  have hhead : writeBytesHeader TX_BUFFER NO_SUB = [0x89] := by decide
  have hget : (st._txfctrl.set 0 (L % 256)).getD 1 0 = st._txfctrl.getD 1 0 := by
    simp [List.getD_eq_getElem?_getD, List.getElem?_set]
  unfold setData
  simp only [LEN_TX_BUFFER, LEN_UWB_FRAMES, LEN_EXT_UWB_FRAMES, hT]
  split
  · rename_i h1
    exfalso
    omega
  · split
    · rename_i h1 h2
      exfalso
      cases he : st._extendedFrameLength <;> simp [he] at h h2 <;> omega
    · simp only [writeBytes, hhead, hbits, hmask, hhi, hget, Nat.mod_mod, Int.toNat_ofNat]

/-- `transmitRate` in closed form: the rate code is `rate AND 3` with 3
replaced by 2, shifted to bits 5-6 and OR-ed into byte 1. -/
theorem transmitRate_eq (st : State) (r : Nat) :
    transmitRate st r =
      { st with
        _txfctrl := st._txfctrl.set 1
          ((st._txfctrl.getD 1 0 ||| ((if r &&& 3 = 3 then 2 else r &&& 3) <<< 5)) % 256) } := by
  have hle : r &&& 3 ≤ 3 := Nat.and_le_right
  unfold transmitRate
  simp only [TX_RATE_6800KBPS]
  generalize r &&& 3 = x at hle
  interval_cases x <;> rfl

/-- The rate code written by `transmitRate` is 0, 1 or 2. -/
theorem rate_code_le (r : Nat) : (if r &&& 3 = 3 then 2 else r &&& 3) ≤ 2 := by
  have hle : r &&& 3 ≤ 3 := Nat.and_le_right
  split <;> omega

/-- After `newTransmit` and `transmitRate(r)` the transmit-frame-control image
is zero except for the rate code in bits 5-6 of byte 1. -/
theorem transmitRate_newTransmit_txfctrl (st : State) (r : Nat) :
    (transmitRate (newTransmit st) r)._txfctrl =
      [0, (if r &&& 3 = 3 then 2 else r &&& 3) <<< 5, 0, 0, 0] := by
  have hle := rate_code_le r
  rw [transmitRate_eq]
  simp only [newTransmit, LEN_TX_FCTRL]
  generalize (if r &&& 3 = 3 then 2 else r &&& 3) = x at hle
  interval_cases x <;> decide

/-- The rate code in bits 5-6 and the high length bits in bits 0-2 of byte 1
do not disturb each other. -/
theorem rate_and_length_fields : ∀ x < 3, ∀ q < 4,
    ((((x <<< 5) ||| (q &&& 7)) % 256) >>> 5) &&& 3 = x ∧
    (((x <<< 5) ||| (q &&& 7)) % 256) &&& 3 = q ∧ ((x <<< 5) >>> 5) &&& 3 = x := by
  decide

/-- A five-byte image is a list of five entries below 256. -/
theorem isImage_five {img : List Nat} (h : isImage 5 img) :
    ∃ a b c d e, img = [a, b, c, d, e] ∧ a < 256 ∧ b < 256 ∧ c < 256 ∧ d < 256 ∧ e < 256 := by
  obtain ⟨hlen, hb⟩ := h
  match img, hlen with
  | [a, b, c, d, e], _ =>
    exact ⟨a, b, c, d, e, rfl, hb a (by simp), hb b (by simp), hb c (by simp), hb d (by simp),
      hb e (by simp)⟩

/-- In standard frame mode (`_extendedFrameLength` false), while `n + 2` stays
in the range of `int`, `setData` performs no bus write and leaves the
transmit-frame-control image unchanged exactly when the total length exceeds
127, the total being `n + 2` while the frame check is enabled and `n` once
`suppressFrameCheck` has set the flag. A 126-byte payload right after
`newTransmit` (total 128) leaves the state as it was; after `newTransmit` and
`suppressFrameCheck` (total 126) it is written to the transmit buffer and the
length 126 is stored. -/
theorem setData_frame_limit_in_range (st : State) (data : Nat → Nat) (n : Nat)
    (hn : n ≤ 2147483645) (hstd : st._extendedFrameLength = false) :
    (((setData st data n).bus = st.bus ∧ (setData st data n)._txfctrl = st._txfctrl) ↔
      127 < (if st._frameCheckSuppressed then n else n + 2)) ∧
    (suppressFrameCheck st)._frameCheckSuppressed = true ∧
    (newTransmit st)._frameCheckSuppressed = false ∧
    setData (newTransmit st) data 126 = newTransmit st ∧
    (setData (suppressFrameCheck (newTransmit st)) data 126).bus =
      st.bus ++ [Transaction.write [0x89] ((List.range 126).map data)] ∧
    (setData (suppressFrameCheck (newTransmit st)) data 126)._txfctrl = [126, 0, 0, 0, 0] := by
  refine ⟨?_, rfl, rfl, ?_, ?_, ?_⟩
  · by_cases hL : 127 < (if st._frameCheckSuppressed then n else n + 2)
    · have hrej := setData_of_rejected st data n hn (by rw [hstd]; exact hL)
      rw [hrej]
      simp [hL]
    · have hacc := setData_of_accepted st data n _ rfl (by rw [hstd]; exact Nat.le_of_not_lt hL)
      rw [hacc]
      simp [hL]
  · exact setData_of_rejected (newTransmit st) data 126 (by decide)
      (by simp [newTransmit, hstd])
  · rw [setData_of_accepted (suppressFrameCheck (newTransmit st)) data 126 126 rfl
      (by simp [suppressFrameCheck, newTransmit, hstd])]
    rfl
  · rw [setData_of_accepted (suppressFrameCheck (newTransmit st)) data 126 126 rfl
      (by simp [suppressFrameCheck, newTransmit, hstd])]
    simp only [suppressFrameCheck, newTransmit, LEN_TX_FCTRL]
    decide

/-- C6 (fails on the code). In standard frame mode with the frame check
enabled (right after `newTransmit`), `setData` with `n = 2147483647`, the
largest `int`, is not rejected although the total length `n + 2` exceeds 127:
`n += 2` wraps around to `-2147483647`, which passes both length guards, so a
write to the transmit buffer register is issued (its loop runs no time) and
byte 0 of the transmit-frame-control image changes from 0 to 1. -/
theorem setData_length_overflow :
    (newTransmit (new 10 [0, 0, 0, 0] [0, 0, 0, 0] [0, 0, 0, 0, 0]))._extendedFrameLength = false ∧
    (newTransmit (new 10 [0, 0, 0, 0] [0, 0, 0, 0] [0, 0, 0, 0, 0]))._frameCheckSuppressed = false ∧
    wrapInt (2147483647 + 2) = -2147483647 ∧
    (newTransmit (new 10 [0, 0, 0, 0] [0, 0, 0, 0] [0, 0, 0, 0, 0])).bus = [] ∧
    (setData (newTransmit (new 10 [0, 0, 0, 0] [0, 0, 0, 0] [0, 0, 0, 0, 0])) (fun i => i) 2147483647).bus =
      [Transaction.write [0x89] []] ∧
    (newTransmit (new 10 [0, 0, 0, 0] [0, 0, 0, 0] [0, 0, 0, 0, 0]))._txfctrl = [0, 0, 0, 0, 0] ∧
    (setData (newTransmit (new 10 [0, 0, 0, 0] [0, 0, 0, 0] [0, 0, 0, 0, 0])) (fun i => i) 2147483647)._txfctrl =
      [1, 0, 0, 0, 0] := by
  decide

/-- C8 (as amended). `setData` never reads or changes the device mode: in
any mode, Idle and Receiving included, it does exactly what it does in
Transmitting mode, and the mode afterwards is the mode before. -/
theorem setData_ignores_deviceMode (st : State) (data : Nat → Nat) (n mode : Nat) :
    (setData st data n)._deviceMode = st._deviceMode ∧
    setData { st with _deviceMode := mode } data n =
      { setData st data n with _deviceMode := mode } := by
  unfold setData
  simp only [writeBytes]
  constructor
  · split_ifs <;> with_reducible rfl
  · split_ifs <;> with_reducible rfl

/-- C8 (fails as stated). On a freshly constructed driver, whose mode is
Idle, `setData` of a 3-byte payload is not rejected: it writes to the transmit
buffer register and stores the length 5 in the transmit-frame-control
image. -/
theorem setData_in_idle_mode_writes :
    (new 10 [0, 0, 0, 0] [0, 0, 0, 0] [0, 0, 0, 0, 0])._deviceMode = IDLE_MODE ∧
    (setData (new 10 [0, 0, 0, 0] [0, 0, 0, 0] [0, 0, 0, 0, 0]) (fun i => i + 1) 3).bus =
      [Transaction.write [0x89] [1, 2, 3, 4, 5]] ∧
    (setData (new 10 [0, 0, 0, 0] [0, 0, 0, 0] [0, 0, 0, 0, 0]) (fun i => i + 1) 3)._txfctrl =
      [5, 0, 0, 0, 0] := by
  decide

/-- C9. From every state `transmitRate(3)` gives the same state as
`transmitRate(TX_RATE_6800KBPS)`; the result of `transmitRate(r)` is that of
`transmitRate(r AND 3)`, and that of the rate code `r AND 3` with 3 replaced
by 2; only the transmit-frame-control image changes. -/
theorem transmitRate_three_is_6800 (st : State) (r : Nat) :
    transmitRate st 3 = transmitRate st TX_RATE_6800KBPS ∧
    transmitRate st r = transmitRate st (r &&& 3) ∧
    transmitRate st r = transmitRate st (if r &&& 3 = 3 then 2 else r &&& 3) ∧
    transmitRate st r = { st with _txfctrl := (transmitRate st r)._txfctrl } := by
  have hle : r &&& 3 ≤ 3 := Nat.and_le_right
  refine ⟨rfl, ?_, ?_, rfl⟩
  · rw [transmitRate_eq st r, transmitRate_eq st (r &&& 3), Nat.and_assoc, Nat.and_self]
  · rw [transmitRate_eq st r, transmitRate_eq st (if r &&& 3 = 3 then 2 else r &&& 3)]
    generalize r &&& 3 = x at hle
    interval_cases x <;> rfl

/-- C10 (as amended). For every rate value `r`, starting from the cleared
transmit-frame-control image, bits 5-6 of byte 1 after `transmitRate(r)` hold
`r AND 3` with 3 replaced by 2: the 6.8 Mbps code for `r AND 3` equal to 2 or
3, the codes 00 and 01 for `r AND 3` equal to 0 and 1. -/
theorem transmitRate_field_from_cleared (st : State) (r : Nat) :
    (transmitRate (newTransmit st) r)._txfctrl =
      [0, (if r &&& 3 = 3 then 2 else r &&& 3) <<< 5, 0, 0, 0] ∧
    (((transmitRate (newTransmit st) r)._txfctrl.getD 1 0) >>> 5) &&& 3 =
      (if r &&& 3 = 3 then 2 else r &&& 3) := by
  have hR := rate_code_le r
  refine ⟨transmitRate_newTransmit_txfctrl st r, ?_⟩
  rw [transmitRate_newTransmit_txfctrl st r]
  simp only [List.getD_cons_succ, List.getD_cons_zero]
  exact (rate_and_length_fields _ (by omega) 0 (by decide)).2.2

/-- C10 (fails as stated). The out-of-range rate value 4 is not normalised to
6.8 Mbps: from the cleared image, bits 5-6 of byte 1 hold 00 (the 110 kbps
code), whereas the 6.8 Mbps constant gives binary 10. -/
theorem transmitRate_four_is_110 :
    (((transmitRate (newTransmit (new 10 [0, 0, 0, 0] [0, 0, 0, 0] [0, 0, 0, 0, 0]))
        4)._txfctrl.getD 1 0) >>> 5) &&& 3 = 0 ∧
    (((transmitRate (newTransmit (new 10 [0, 0, 0, 0] [0, 0, 0, 0] [0, 0, 0, 0, 0]))
        TX_RATE_6800KBPS)._txfctrl.getD 1 0) >>> 5) &&& 3 = 2 := by
  decide

/-! ### Session operations -/

/-- Inside the image `getBit` reads `bitAt`; outside it returns false. -/
theorem getBit_eq_bitAt (data : List Nat) (n k : Nat) :
    getBit data n k = (decide (k / 8 < n) && bitAt data k) := by
  unfold getBit bitAt
  by_cases h : k / 8 ≥ n
  · have h2 : ¬ k / 8 < n := by omega
    simp [h, h2]
  · have h2 : k / 8 < n := by omega
    simp only [h, if_false, bitRead_ne_zero, h2, decide_True, Bool.true_and]

/-- Transferring a five-byte image through a pointer sends its five bytes. -/
theorem map_ptr_five (a b c d e : Nat) :
    (List.range 5).map (ptr [a, b, c, d, e]) = [a, b, c, d, e] := by
  rfl

/-- Transferring a four-byte image through a pointer sends its four bytes. -/
theorem map_ptr_four (a b c d : Nat) :
    (List.range 4).map (ptr [a, b, c, d]) = [a, b, c, d] := by
  rfl

/-- A four-byte image is a list of four entries below 256. -/
theorem isImage_four {img : List Nat} (h : isImage 4 img) :
    ∃ a b c d, img = [a, b, c, d] ∧ a < 256 ∧ b < 256 ∧ c < 256 ∧ d < 256 := by
  obtain ⟨hlen, hb⟩ := h
  match img, hlen with
  | [a, b, c, d], _ =>
    exact ⟨a, b, c, d, rfl, hb a (by simp), hb b (by simp), hb c (by simp), hb d (by simp)⟩

/-- `idle` in closed form. -/
theorem idle_eq (st : State) :
    idle st =
      { st with
        _sysctrl := [0x40, 0, 0, 0]
        _deviceMode := IDLE_MODE
        bus := st.bus ++ [Transaction.write [0x8D] [0x40, 0, 0, 0]] } := by
  have h1 : (List.replicate LEN_SYS_CTRL 0).set 0
      (bitSet ((List.replicate LEN_SYS_CTRL 0).getD 0 0) TRXOFF_BIT) = [0x40, 0, 0, 0] := by
    decide
  have h2 : writeBytesHeader SYS_CTRL NO_SUB = [0x8D] := by decide
  have h3 : (List.range LEN_SYS_CTRL).map (ptr [0x40, 0, 0, 0]) = [0x40, 0, 0, 0] := by decide
  simp only [idle, writeBytes, h1, h2, h3]


/-- In the image `[0x40, 0, 0, 0]` bit 6 is set and no other bit is. -/
theorem bitAt_trxoff (k : Nat) : bitAt [0x40, 0, 0, 0] k = decide (k = TRXOFF_BIT) := by
  by_cases h : k < 8
  · interval_cases k <;> decide
  · have hz : [0x40, 0, 0, 0].getD (k / 8) 0 = 0 := by
      obtain ⟨j, hj⟩ : ∃ j, k / 8 = j + 1 := ⟨k / 8 - 1, by omega⟩
      rw [hj]
      rcases j with _ | _ | _ | j <;> simp
    have hne : ¬ k = TRXOFF_BIT := by
      unfold TRXOFF_BIT
      omega
    unfold bitAt
    rw [hz]
    simp [hne]

/-- C12. From every starting state and for every payload, the sequence
`newTransmit()`, `setData(payload)`, `startTransmit()` leaves the device mode
Idle. -/
theorem transmit_round_trip_mode (st : State) (data : Nat → Nat) (n : Nat) :
    (startTransmit (setData (newTransmit st) data n))._deviceMode = IDLE_MODE := by
  rfl

/-- C13 (as amended). From every state, Transmitting included,
`cancelTransmit()` leaves mode Idle, every byte of the transmit-frame-control
image zero, and the system-control image zero except for the transceiver-off
bit (bit 6 of byte 0), which `idle()` sets. -/
theorem cancelTransmit_result (st : State) :
    (cancelTransmit st)._deviceMode = IDLE_MODE ∧
    (cancelTransmit st)._sysctrl = [0x40, 0, 0, 0] ∧
    (cancelTransmit st)._txfctrl = [0, 0, 0, 0, 0] ∧
    ∀ k, bitAt (cancelTransmit st)._sysctrl k = decide (k = TRXOFF_BIT) := by
  have h : cancelTransmit st = idle (newTransmit st) := rfl
  rw [h, idle_eq]
  refine ⟨rfl, rfl, rfl, ?_⟩
  intro k
  exact bitAt_trxoff k

/-- C13 (fails as stated). From a state in Transmitting mode,
`cancelTransmit()` leaves byte 0 of the system-control image at `0x40`, not
zero. -/
theorem cancelTransmit_sysctrl_not_zero :
    (newTransmit (new 10 [0, 0, 0, 0] [0, 0, 0, 0] [0, 0, 0, 0, 0]))._deviceMode = TX_MODE ∧
    (cancelTransmit (newTransmit (new 10 [0, 0, 0, 0] [0, 0, 0, 0] [0, 0, 0, 0, 0])))._sysctrl =
      [0x40, 0, 0, 0] := by
  decide

/-- C16. From every state `newTransmit()` leaves mode Transmitting, the
system-control and transmit-frame-control images all zero and the
frame-check-suppressed flag false, so that a preceding `suppressFrameCheck()`
leaves no trace; it issues no bus write and leaves the system-configuration
image unchanged. -/
theorem newTransmit_result (st : State) :
    (newTransmit st)._deviceMode = TX_MODE ∧
    (newTransmit st)._sysctrl = [0, 0, 0, 0] ∧
    (newTransmit st)._txfctrl = [0, 0, 0, 0, 0] ∧
    (newTransmit st)._frameCheckSuppressed = false ∧
    newTransmit (suppressFrameCheck st) = newTransmit st ∧
    (newTransmit st).bus = st.bus ∧
    (newTransmit st)._syscfg = st._syscfg := by
  exact ⟨rfl, rfl, rfl, rfl, rfl, rfl, rfl⟩


/-- C17. From every state `idle()` leaves mode Idle and a system-control
image in which the transceiver-off bit (bit 6 of byte 0) is set and every
other bit is zero; the one bus write it issues is the four-byte write of that
image to the system-control register. -/
theorem idle_result (st : State) :
    (idle st)._deviceMode = IDLE_MODE ∧
    (idle st)._sysctrl = [0x40, 0, 0, 0] ∧
    (∀ k, bitAt (idle st)._sysctrl k = decide (k = TRXOFF_BIT)) ∧
    (idle st).bus = st.bus ++ [Transaction.write [(WRITE ||| SYS_CTRL) % 256] (idle st)._sysctrl] := by
  rw [idle_eq]
  exact ⟨rfl, rfl, bitAt_trxoff, rfl⟩

/-- C18. For every state with a four-byte system-control image and a
five-byte transmit-frame-control image, `startTransmit()` issues exactly two
bus writes, in this order: the transmit-frame-control image to its register,
then the system-control image to its register; the flushed system-control
image has the transmit-start bit (bit 1) set and otherwise equals the image
before the call; afterwards the mode is Idle. -/
theorem startTransmit_bus (st : State) (hctrl : isImage 4 st._sysctrl)
    (hfc : isImage 5 st._txfctrl) :
    (startTransmit st).bus =
      st.bus ++ [Transaction.write [(WRITE ||| TX_FCTRL) % 256] st._txfctrl,
        Transaction.write [(WRITE ||| SYS_CTRL) % 256] (startTransmit st)._sysctrl] ∧
    (startTransmit st)._sysctrl = st._sysctrl.set 0 (st._sysctrl.getD 0 0 ||| 2) ∧
    bitAt (startTransmit st)._sysctrl TXSTRT_BIT = true ∧
    (∀ k, k ≠ TXSTRT_BIT → bitAt (startTransmit st)._sysctrl k = bitAt st._sysctrl k) ∧
    (startTransmit st)._deviceMode = IDLE_MODE := by
  obtain ⟨a, b, c, d, h4, ha, -, -, -⟩ := isImage_four hctrl
  obtain ⟨p, q, r, t, u, h5, -, -, -, -, -⟩ := isImage_five hfc
  have hset : bitSet a TXSTRT_BIT = a ||| 2 := by
    have hlt : a ||| 2 < 2 ^ 8 := Nat.or_lt_two_pow (by omega) (by decide)
    have : (a ||| 2) % 256 = a ||| 2 := by omega
    simpa [bitSet, TXSTRT_BIT] using this
  have hh1 : writeBytesHeader TX_FCTRL NO_SUB = [(WRITE ||| TX_FCTRL) % 256] := by decide
  have hh2 : writeBytesHeader SYS_CTRL NO_SUB = [(WRITE ||| SYS_CTRL) % 256] := by decide
  simp only [startTransmit, writeBytes, h4, h5, hh1, hh2, LEN_TX_FCTRL, LEN_SYS_CTRL,
    List.getD_cons_zero, List.set_cons_zero, hset, map_ptr_five, map_ptr_four]
  have e2 : (2 : Nat) = 2 ^ 1 := by norm_num
  refine ⟨by simp, trivial, ?_, ?_, trivial⟩
  · simp only [bitAt, TXSTRT_BIT, Nat.zero_div, List.getD_cons_zero, Nat.testBit_or]
    rw [show (1 : Nat) / 8 = 0 from rfl, List.getD_cons_zero, Nat.testBit_or, e2,
      Nat.testBit_two_pow]
    simp
  · intro k hk
    unfold TXSTRT_BIT at hk
    unfold bitAt
    by_cases h8 : k < 8
    · have hdiv : k / 8 = 0 := by omega
      have hmod : k % 8 = k := by omega
      rw [hdiv, hmod, List.getD_cons_zero, List.getD_cons_zero, Nat.testBit_or, e2,
        Nat.testBit_two_pow]
      have : ¬ 1 = k := by omega
      simp [this]
    · obtain ⟨j, hj⟩ : ∃ j, k / 8 = j + 1 := ⟨k / 8 - 1, by omega⟩
      rw [hj, List.getD_cons_succ, List.getD_cons_succ]


theorem startTransmit_bus_witness :
    isImage 4 (transmitRate (newTransmit (new 10 [0, 0, 0, 0] [0, 0, 0, 0] [0, 0, 0, 0, 0])) 2)._sysctrl ∧
    isImage 5 (transmitRate (newTransmit (new 10 [0, 0, 0, 0] [0, 0, 0, 0] [0, 0, 0, 0, 0])) 2)._txfctrl ∧
    ((startTransmit (transmitRate (newTransmit (new 10 [0, 0, 0, 0] [0, 0, 0, 0] [0, 0, 0, 0, 0])) 2)).bus =
      (transmitRate (newTransmit (new 10 [0, 0, 0, 0] [0, 0, 0, 0] [0, 0, 0, 0, 0])) 2).bus ++
        [Transaction.write [(WRITE ||| TX_FCTRL) % 256]
            (transmitRate (newTransmit (new 10 [0, 0, 0, 0] [0, 0, 0, 0] [0, 0, 0, 0, 0])) 2)._txfctrl,
          Transaction.write [(WRITE ||| SYS_CTRL) % 256]
            (startTransmit (transmitRate (newTransmit (new 10 [0, 0, 0, 0] [0, 0, 0, 0] [0, 0, 0, 0, 0])) 2))._sysctrl] ∧
    (startTransmit (transmitRate (newTransmit (new 10 [0, 0, 0, 0] [0, 0, 0, 0] [0, 0, 0, 0, 0])) 2))._sysctrl =
      (transmitRate (newTransmit (new 10 [0, 0, 0, 0] [0, 0, 0, 0] [0, 0, 0, 0, 0])) 2)._sysctrl.set 0
        ((transmitRate (newTransmit (new 10 [0, 0, 0, 0] [0, 0, 0, 0] [0, 0, 0, 0, 0])) 2)._sysctrl.getD 0 0 ||| 2) ∧
    bitAt (startTransmit (transmitRate (newTransmit (new 10 [0, 0, 0, 0] [0, 0, 0, 0] [0, 0, 0, 0, 0])) 2))._sysctrl
      TXSTRT_BIT = true ∧
    (∀ k, k ≠ TXSTRT_BIT →
      bitAt (startTransmit (transmitRate (newTransmit (new 10 [0, 0, 0, 0] [0, 0, 0, 0] [0, 0, 0, 0, 0])) 2))._sysctrl k =
        bitAt (transmitRate (newTransmit (new 10 [0, 0, 0, 0] [0, 0, 0, 0] [0, 0, 0, 0, 0])) 2)._sysctrl k) ∧
    (startTransmit (transmitRate (newTransmit (new 10 [0, 0, 0, 0] [0, 0, 0, 0] [0, 0, 0, 0, 0])) 2))._deviceMode =
      IDLE_MODE) :=
  ⟨by decide, by decide,
    startTransmit_bus (transmitRate (newTransmit (new 10 [0, 0, 0, 0] [0, 0, 0, 0] [0, 0, 0, 0, 0])) 2)
      (by decide) (by decide)⟩

/-- When the chip answers with the five bytes of `s`, the snapshot read from
the status register is `s`. -/
theorem readBytes_status (st : State) (s : List Nat) (hs : isImage 5 s) :
    (readBytes st SYS_STATUS (ptr s) LEN_SYS_STATUS).2 = s := by
  obtain ⟨a, b, c, d, e, h5, ha, hb, hc, hd, he⟩ := isImage_five hs
  subst h5
  have h : (List.range 5).map (fun i => ptr [a, b, c, d, e] i % 256) =
      [a % 256, b % 256, c % 256, d % 256, e % 256] := rfl
  simp only [readBytes, LEN_SYS_STATUS, h, Nat.mod_eq_of_lt ha, Nat.mod_eq_of_lt hb,
    Nat.mod_eq_of_lt hc, Nat.mod_eq_of_lt hd, Nat.mod_eq_of_lt he]

/-- C14. For every five-byte status snapshot `s` returned by the chip,
`isReceiveSuccess` returns true if and only if the LDE error bit (18), the
frame-check error bit (15) and the reception-decode error bit (16) are clear
and the frame-check-good bit (14) and the LDE-done bit (10) are set; it
returns false whenever the frame-check error bit is set. -/
theorem isReceiveSuccess_iff (st : State) (s : List Nat) (hs : isImage 5 s) :
    (readBytes st SYS_STATUS (ptr s) LEN_SYS_STATUS).2 = s ∧
    ((isReceiveSuccess st (ptr s)).2 = true ↔
      (bitAt s LDEERR_BIT = false ∧ bitAt s RXFCE_BIT = false ∧ bitAt s RXRFSL_BIT = false ∧
        bitAt s RXFCG_BIT = true ∧ bitAt s LDEDONE_BIT = true)) ∧
    (bitAt s RXFCE_BIT = true → (isReceiveSuccess st (ptr s)).2 = false) ∧
    (LDEERR_BIT, RXFCE_BIT, RXRFSL_BIT, RXFCG_BIT, LDEDONE_BIT) = (18, 15, 16, 14, 10) := by
  have hread := readBytes_status st s hs
  have hiff : (isReceiveSuccess st (ptr s)).2 = true ↔
      (bitAt s LDEERR_BIT = false ∧ bitAt s RXFCE_BIT = false ∧ bitAt s RXRFSL_BIT = false ∧
        bitAt s RXFCG_BIT = true ∧ bitAt s LDEDONE_BIT = true) := by
    unfold isReceiveSuccess
    simp only [hread, getBit_eq_bitAt]
    have h18 : decide (LDEERR_BIT / 8 < LEN_SYS_STATUS) = true := by decide
    have h15 : decide (RXFCE_BIT / 8 < LEN_SYS_STATUS) = true := by decide
    have h16 : decide (RXRFSL_BIT / 8 < LEN_SYS_STATUS) = true := by decide
    have h14 : decide (RXFCG_BIT / 8 < LEN_SYS_STATUS) = true := by decide
    have h10 : decide (LDEDONE_BIT / 8 < LEN_SYS_STATUS) = true := by decide
    simp only [h18, h15, h16, h14, h10, Bool.true_and]
    cases bitAt s LDEERR_BIT <;> cases bitAt s RXFCE_BIT <;> cases bitAt s RXRFSL_BIT <;>
      cases bitAt s RXFCG_BIT <;> cases bitAt s LDEDONE_BIT <;> simp
  refine ⟨hread, hiff, ?_, rfl⟩
  intro h15
  cases hres : (isReceiveSuccess st (ptr s)).2
  · rfl
  · have := (hiff.mp hres).2.1
    rw [h15] at this
    cases this

theorem isReceiveSuccess_iff_witness :
    isImage 5 [0, 0xC4, 0, 0, 0] ∧
    bitAt [0, 0xC4, 0, 0, 0] RXFCE_BIT = true ∧
    bitAt [0, 0xC4, 0, 0, 0] RXFCG_BIT = true ∧
    bitAt [0, 0xC4, 0, 0, 0] LDEDONE_BIT = true ∧
    (isReceiveSuccess (new 10 [0, 0, 0, 0] [0, 0, 0, 0] [0, 0, 0, 0, 0])
      (ptr [0, 0xC4, 0, 0, 0])).2 = false :=
  ⟨by decide, by decide, by decide, by decide,
    (isReceiveSuccess_iff (new 10 [0, 0, 0, 0] [0, 0, 0, 0] [0, 0, 0, 0, 0])
      [0, 0xC4, 0, 0, 0] (by decide)).2.2.1 (by decide)⟩


/-! ### Operations built on `setBit` -/

/-- For a byte and a shift count of 8 or more, `bitSet` leaves the byte as it
is: the bit it sets is cut off by the store into the byte. -/
theorem bitSet_of_ge (x c : Nat) (hx : x < 256) (hc : 8 ≤ c) : bitSet x c = x := by
  apply Nat.eq_of_testBit_eq
  intro j
  have e256 : (256 : Nat) = 2 ^ 8 := by norm_num
  unfold bitSet
  rw [Nat.shiftLeft_eq, Nat.one_mul, e256, Nat.testBit_mod_two_pow, Nat.testBit_or,
    Nat.testBit_mod_two_pow, Nat.testBit_two_pow]
  by_cases hj : j < 8
  · have hne : ¬ c = j := by omega
    simp [hj, hne]
  · have hxj : x.testBit j = false := by
      apply Nat.testBit_lt_two_pow
      calc x < 2 ^ 8 := by omega
        _ ≤ 2 ^ j := Nat.pow_le_pow_right (by decide) (by omega)
    simp [hj, hxj]

/-- With the uninitialised local holding 8 or more, `setBit` with `val = true`
changes nothing in an image of bytes. -/
theorem setBit_of_ge (c : Nat) (hc : 8 ≤ c) (data : List Nat) (n b : Nat)
    (hbytes : ∀ x ∈ data, x < 256) : setBit c data n b true = data := by
  unfold setBit
  simp only [if_true]
  split
  · rfl
  · by_cases hlen : b / 8 < data.length
    · have hx : data.getD (b / 8) 0 < 256 := by
        rw [List.getD_eq_getElem?_getD, List.getElem?_eq_getElem hlen]
        exact hbytes _ (List.getElem_mem _)
      rw [bitSet_of_ge _ _ hx hc]
      apply List.ext_getElem?
      intro j
      rw [List.getElem?_set]
      by_cases hij : b / 8 = j
      · subst hij
        simp [hlen, List.getD_eq_getElem?_getD]
      · simp [hij]
    · exact List.set_eq_of_length_le (by omega)


/-- C19 (fails on the code). In Transmitting mode on a zero system-control
image, with the uninitialised local of `setBit` holding 0,
`delayedTransceive` sets bit 0 (the suppress-frame-check bit) and not the
transmit-delay bit 2. Whatever value `c` the local holds, the transmit-delay
bit ends up set only for `c = 2` and, in Receiving mode, the receive-delay
bit 9 only for `c = 1`. -/
theorem delayedTransceive_wrong_bit :
    (delayedTransceive 0 (newTransmit (new 10 [0, 0, 0, 0] [0, 0, 0, 0] [0, 0, 0, 0, 0])) 1000)._sysctrl = [1, 0, 0, 0] ∧
    bitAt (delayedTransceive 0 (newTransmit (new 10 [0, 0, 0, 0] [0, 0, 0, 0] [0, 0, 0, 0, 0])) 1000)._sysctrl TXDLYS_BIT = false ∧
    bitAt (delayedTransceive 0 (newTransmit (new 10 [0, 0, 0, 0] [0, 0, 0, 0] [0, 0, 0, 0, 0])) 1000)._sysctrl SFCST_BIT = true ∧
    (∀ c, bitAt (delayedTransceive c (newTransmit (new 10 [0, 0, 0, 0] [0, 0, 0, 0] [0, 0, 0, 0, 0])) 1000)._sysctrl TXDLYS_BIT =
      decide (c = 2)) ∧
    (∀ c, bitAt (delayedTransceive c (newReceive (new 10 [0, 0, 0, 0] [0, 0, 0, 0] [0, 0, 0, 0, 0])) 1000)._sysctrl RXDLYS_BIT =
      decide (c = 1)) := by
  refine ⟨by decide, by decide, by decide, ?_, ?_⟩
  · intro c
    by_cases hc : c < 8
    · interval_cases c <;> decide
    · have h : (delayedTransceive c (newTransmit (new 10 [0, 0, 0, 0] [0, 0, 0, 0] [0, 0, 0, 0, 0])) 1000)._sysctrl =
          setBit c [0, 0, 0, 0] 4 2 true := rfl
      have hne : ¬ c = 2 := by omega
      rw [h, setBit_of_ge c (by omega) _ _ _ (by decide)]
      simp only [hne, decide_False]
      decide
  · intro c
    by_cases hc : c < 8
    · interval_cases c <;> decide
    · have h : (delayedTransceive c (newReceive (new 10 [0, 0, 0, 0] [0, 0, 0, 0] [0, 0, 0, 0, 0])) 1000)._sysctrl =
          setBit c [0, 0, 0, 0] 4 9 true := rfl
      have hne : ¬ c = 1 := by omega
      rw [h, setBit_of_ge c (by omega) _ _ _ (by decide)]
      simp only [hne, decide_False]
      decide

/-- C20 (fails on the code). On a zero system-configuration image, with the
uninitialised local of `setBit` holding 0, `setDoubleBuffering(false)` sets
bit 24 and not bit 29, and `setReceiverAutoReenable(true)` sets bit 8 and not
bit 12. Whatever value `c` the local holds, the three setters reach their
bits 0, 29 and 12 only for `c = 0`, `c = 5` and `c = 4`. -/
theorem syscfg_setters_wrong_bit :
    (setDoubleBuffering 0 (new 10 [0, 0, 0, 0] [0, 0, 0, 0] [0, 0, 0, 0, 0]) false)._syscfg = [0, 0, 0, 1] ∧
    bitAt (setDoubleBuffering 0 (new 10 [0, 0, 0, 0] [0, 0, 0, 0] [0, 0, 0, 0, 0]) false)._syscfg RXAUTR_BIT = false ∧
    (setReceiverAutoReenable 0 (new 10 [0, 0, 0, 0] [0, 0, 0, 0] [0, 0, 0, 0, 0]) true)._syscfg = [0, 1, 0, 0] ∧
    bitAt (setReceiverAutoReenable 0 (new 10 [0, 0, 0, 0] [0, 0, 0, 0] [0, 0, 0, 0, 0]) true)._syscfg DIS_DRXB_BIT = false ∧
    (∀ c, bitAt (setFrameFilter c (new 10 [0, 0, 0, 0] [0, 0, 0, 0] [0, 0, 0, 0, 0]) true)._syscfg FFEN_BIT = decide (c = 0)) ∧
    (∀ c, bitAt (setDoubleBuffering c (new 10 [0, 0, 0, 0] [0, 0, 0, 0] [0, 0, 0, 0, 0]) false)._syscfg RXAUTR_BIT = decide (c = 5)) ∧
    (∀ c, bitAt (setReceiverAutoReenable c (new 10 [0, 0, 0, 0] [0, 0, 0, 0] [0, 0, 0, 0, 0]) true)._syscfg DIS_DRXB_BIT =
      decide (c = 4)) := by
  refine ⟨by decide, by decide, by decide, by decide, ?_, ?_, ?_⟩
  · intro c
    by_cases hc : c < 8
    · interval_cases c <;> decide
    · have h : (setFrameFilter c (new 10 [0, 0, 0, 0] [0, 0, 0, 0] [0, 0, 0, 0, 0]) true)._syscfg = setBit c [0, 0, 0, 0] 4 0 true := rfl
      have hne : ¬ c = 0 := by omega
      rw [h, setBit_of_ge c (by omega) _ _ _ (by decide)]
      simp only [hne, decide_False]
      decide
  · intro c
    by_cases hc : c < 8
    · interval_cases c <;> decide
    · have h : (setDoubleBuffering c (new 10 [0, 0, 0, 0] [0, 0, 0, 0] [0, 0, 0, 0, 0]) false)._syscfg = setBit c [0, 0, 0, 0] 4 29 true := rfl
      have hne : ¬ c = 5 := by omega
      rw [h, setBit_of_ge c (by omega) _ _ _ (by decide)]
      simp only [hne, decide_False]
      decide
  · intro c
    by_cases hc : c < 8
    · interval_cases c <;> decide
    · have h : (setReceiverAutoReenable c (new 10 [0, 0, 0, 0] [0, 0, 0, 0] [0, 0, 0, 0, 0]) true)._syscfg =
          setBit c [0, 0, 0, 0] 4 12 true := rfl
      have hne : ¬ c = 4 := by omega
      rw [h, setBit_of_ge c (by omega) _ _ _ (by decide)]
      simp only [hne, decide_False]
      decide


/-- C11 (fails on the code). On a zero system-configuration image, with the
uninitialised local of `setBit` holding 0 at both calls,
`transmitFrameLength(200)` leaves the field at bits 16-17 as 01: bit 17 is
not set. Whatever single value the local holds at both calls, bits 16 and 17
are not both set. For the length 256, which the `byte` parameter turns into
0, the field stays 00 whatever the local holds. -/
theorem transmitFrameLength_phr_mode :
    (transmitFrameLength 0 0 0 (new 10 [0, 0, 0, 0] [0, 0, 0, 0] [0, 0, 0, 0, 0]) 200)._syscfg = [0, 0, 1, 0] ∧
    bitAt (transmitFrameLength 0 0 0 (new 10 [0, 0, 0, 0] [0, 0, 0, 0] [0, 0, 0, 0, 0]) 200)._syscfg PHR_MODE_MSB = false ∧
    (∀ c next,
      ¬ (bitAt (transmitFrameLength c c next (new 10 [0, 0, 0, 0] [0, 0, 0, 0] [0, 0, 0, 0, 0]) 200)._syscfg PHR_MODE_LSB = true ∧
         bitAt (transmitFrameLength c c next (new 10 [0, 0, 0, 0] [0, 0, 0, 0] [0, 0, 0, 0, 0]) 200)._syscfg PHR_MODE_MSB = true)) ∧
    (∀ c0 c1 next, (transmitFrameLength c0 c1 next (new 10 [0, 0, 0, 0] [0, 0, 0, 0] [0, 0, 0, 0, 0]) 256)._syscfg = [0, 0, 0, 0]) := by
  refine ⟨by decide, by decide, ?_, ?_⟩
  · intro c next
    have h : (transmitFrameLength c c next (new 10 [0, 0, 0, 0] [0, 0, 0, 0] [0, 0, 0, 0, 0]) 200)._syscfg =
        setBit c (setBit c [0, 0, 0, 0] 4 16 true) 4 17 true := rfl
    rw [h]
    by_cases hc : c < 8
    · interval_cases c <;> decide
    · have e : ∀ n b, setBit c [0, 0, 0, 0] n b true = [0, 0, 0, 0] :=
        fun n b => setBit_of_ge c (by omega) _ n b (by decide)
      simp only [e]
      decide
  · intro c0 c1 next
    have h : (transmitFrameLength c0 c1 next (new 10 [0, 0, 0, 0] [0, 0, 0, 0] [0, 0, 0, 0, 0]) 256)._syscfg =
        setBit c1 (setBit c0 [0, 0, 0, 0] 4 16 false) 4 17 false := rfl
    rw [h]
    simp [setBit, bitClear]

/-- C15 (fails on the code). On an all-zero status snapshot, with the
uninitialised local of `setBit` holding 0 at each call, `clearReceiveStatus`
writes back `[0, 1, 1, 0, 0]`: bit 13 is not set and bit 8, not one of the
six, is. Whatever single value the local holds, the image written back is
not `[0, 0xE4, 0x05, 0, 0]`, the zero snapshot with the six bits set. -/
theorem clearReceiveStatus_wrong_bits :
    (clearReceiveStatus (fun _ => 0) (new 10 [0, 0, 0, 0] [0, 0, 0, 0] [0, 0, 0, 0, 0]) (ptr [0, 0, 0, 0, 0])).bus =
      [Transaction.read 0x0F 5, Transaction.write [0x8F] [0, 1, 1, 0, 0]] ∧
    bitAt [0, 1, 1, 0, 0] RXDFR_BIT = false ∧
    bitAt [0, 1, 1, 0, 0] 8 = true ∧
    (∀ c, (clearReceiveStatus (fun _ => c) (new 10 [0, 0, 0, 0] [0, 0, 0, 0] [0, 0, 0, 0, 0]) (ptr [0, 0, 0, 0, 0])).bus ≠
      [Transaction.read 0x0F 5, Transaction.write [0x8F] [0, 0xE4, 0x05, 0, 0]]) := by
  refine ⟨by decide, by decide, by decide, ?_⟩
  intro c
  by_cases hc : c < 8
  · interval_cases c <;> decide
  · have h8 : 8 ≤ c := by omega
    have h : (clearReceiveStatus (fun _ => c) (new 10 [0, 0, 0, 0] [0, 0, 0, 0] [0, 0, 0, 0, 0]) (ptr [0, 0, 0, 0, 0])).bus =
        [Transaction.read 0x0F 5,
          Transaction.write [0x8F] ((List.range 5).map (ptr
            (setBit c (setBit c (setBit c (setBit c (setBit c (setBit c [0, 0, 0, 0, 0]
              5 13 true) 5 10 true) 5 18 true) 5 15 true) 5 14 true) 5 16 true)))] := rfl
    have e : ∀ n b, setBit c [0, 0, 0, 0, 0] n b true = [0, 0, 0, 0, 0] :=
      fun n b => setBit_of_ge c h8 _ n b (by decide)
    rw [h]
    simp only [e]
    decide

/-! ### Status acknowledgement, tuning and the transmit configuration -/

/-- C21 (fails on the code). `clearTransmitStatus()` has an empty body: it
issues no bus transaction at all, so no write to the status register with the
transmit-done bit set; the driver state is what it was. -/
theorem clearTransmitStatus_no_write (st : State) :
    clearTransmitStatus st = st ∧ (clearTransmitStatus st).bus = st.bus ∧
    (clearTransmitStatus (new 10 [0, 0, 0, 0] [0, 0, 0, 0] [0, 0, 0, 0, 0])).bus = [] := by
  exact ⟨rfl, rfl, rfl⟩

/-- For a channel number outside `1, 2, 3, 4, 5, 7` the
switch of `setRFChannel` selects nothing: the local array is left as it was on
entry; the call returns nothing to the caller and leaves the register images,
the flags and the mode unchanged. -/
theorem setRFChannel_unsupported (stack : Nat → Nat) (st : State) (channel : Int)
    (h : channel ≠ 1 ∧ channel ≠ 2 ∧ channel ≠ 3 ∧ channel ≠ 4 ∧ channel ≠ 5 ∧ channel ≠ 7) :
    setRFChannelSwitch stack channel = stack ∧
    { setRFChannel stack st channel with bus := st.bus } = st := by
  obtain ⟨h1, h2, h3, h4, h5, h7⟩ := h
  constructor
  · simp [setRFChannelSwitch, h1, h2, h3, h4, h5, h7]
  · simp only [setRFChannel, writeBytes]

/-- C22 (fails on the code). For the unsupported channel 6 the switch of
`setRFChannel`, which has no `default` label, selects nothing, and the five
register writes that follow it are issued all the same, with the bytes the
uninitialised local array happens to hold (here `0xEE`). -/
theorem setRFChannel_six_writes :
    (setRFChannel (fun _ => 0xEE) (new 10 [0, 0, 0, 0] [0, 0, 0, 0] [0, 0, 0, 0, 0]) 6).bus =
      [Transaction.write [0xDC, 0x0B] [0xEE],
       Transaction.write [0xDC, 0x0C] [0xEE, 0xEE, 0xEE, 0xEE],
       Transaction.write [0xEA, 0x0B] [0xEE, 0xEE],
       Transaction.write [0xEB, 0x07] [0xEE, 0xEE, 0xEE, 0xEE],
       Transaction.write [0xEB, 0x0B] [0xEE, 0xEE]] := by
  decide

/-- C24 (fails on the code). With the frame check enabled (right after
`newTransmit`), `setData` of a 3-byte payload issues a write of 5 bytes to the
transmit buffer: `data[0]`..`data[2]` and then `data[3]`, `data[4]`, which lie
behind the caller's payload (`0xEE` in the instance given). With the frame
check suppressed the write carries the 3 payload bytes. -/
theorem setData_writes_two_more (st : State) (data : Nat → Nat) :
    (setData (newTransmit st) data 3).bus =
      st.bus ++ [Transaction.write [0x89] [data 0, data 1, data 2, data 3, data 4]] ∧
    (setData (suppressFrameCheck (newTransmit st)) data 3).bus =
      st.bus ++ [Transaction.write [0x89] [data 0, data 1, data 2]] ∧
    (setData (newTransmit (new 10 [0, 0, 0, 0] [0, 0, 0, 0] [0, 0, 0, 0, 0])) (fun i => if i < 3 then i + 1 else 0xEE) 3).bus =
      [Transaction.write [0x89] [1, 2, 3, 0xEE, 0xEE]] := by
  refine ⟨?_, ?_, by decide⟩
  · rw [setData_of_accepted (newTransmit st) data 3 5 rfl
      (by simp only [newTransmit]; split <;> decide)]
    rfl
  · rw [setData_of_accepted (suppressFrameCheck (newTransmit st)) data 3 3 rfl
      (by simp only [newTransmit, suppressFrameCheck]; split <;> decide)]
    rfl

/-- C25 (fails on the code). For the rate 110 kbps and the pulse frequency
16 MHz, `tuneReceiver` issues two writes only, to sub-addresses `0x02` and
`0x06` of the receiver-tuning register, whatever the preamble code and the
PAC size; for 64 MHz it issues six, adding sub-addresses `0x04`, `0x08`,
`0x26` and sub-address `0x1806` of the LDE interface register. -/
theorem tuneReceiver_16MHz_two_writes (stack : Nat → Nat) (st : State) (preamble pac : Nat) :
    (tuneReceiver stack st RX_RATE_110KBPS RX_PULSE_FREQ_16MHz preamble pac).bus =
      st.bus ++
        [Transaction.write [0xDB, 0x02] [0x0A, stack 1],
         Transaction.write [0xDB, 0x06] [0x64, stack 3]] ∧
    (tuneReceiver (fun _ => 0xEE) (new 10 [0, 0, 0, 0] [0, 0, 0, 0] [0, 0, 0, 0, 0])
        RX_RATE_110KBPS RX_PULSE_FREQ_16MHz TX_PREAMBLE_LEN_1024 32).bus =
      [Transaction.write [0xDB, 0x02] [0x0A, 0xEE],
       Transaction.write [0xDB, 0x06] [0x64, 0xEE]] ∧
    (tuneReceiver (fun _ => 0xEE) (new 10 [0, 0, 0, 0] [0, 0, 0, 0] [0, 0, 0, 0, 0])
        RX_RATE_110KBPS RX_PULSE_FREQ_64MHz TX_PREAMBLE_LEN_1024 32).bus =
      [Transaction.write [0xDB, 0x02] [0x0A, 0xEE],
       Transaction.write [0xDB, 0x06] [0x64, 0xEE],
       Transaction.write [0xDB, 0x04] [0x8D, 0xEE],
       Transaction.write [0xDB, 0x08] [0x5E, 0xEE, 0xEE, 0xEE],
       Transaction.write [0xEE, 0x86, 0x30] [0x07, 0xEE],
       Transaction.write [0xDB, 0x26] [0x28, 0xEE]] := by
  refine ⟨?_, by decide, by decide⟩
  have h1 : writeBytesHeader DRX_TUNE SUB_2 = [0xDB, 0x02] := by decide
  have h2 : writeBytesHeader DRX_TUNE SUB_6 = [0xDB, 0x06] := by decide
  have hr : List.range 2 = [0, 1] := by decide
  simp only [tuneReceiver, writeBytes, h1, h2, hr, if_true, List.map, offsetPtr, store]
  simp [RX_RATE_110KBPS, SFD_STD_RATE_110KBPS, DRX_TUNE_RATE_110KBPS]
  decide


/-- `pulseFrequency` in closed form: the code is `freq AND 3` with 0 and 3
replaced by 2, OR-ed into byte 2. -/
theorem pulseFrequency_eq (st : State) (f : Nat) :
    pulseFrequency st f =
      { st with
        _txfctrl := st._txfctrl.set 2
          ((st._txfctrl.getD 2 0 |||
            (if f &&& 3 = 0 ∨ f &&& 3 = 3 then 2 else f &&& 3)) % 256) } := by
  have hle : f &&& 3 ≤ 3 := Nat.and_le_right
  unfold pulseFrequency
  simp only [TX_PULSE_FREQ_64MHZ]
  generalize f &&& 3 = x at hle
  interval_cases x <;> rfl

/-- `preambleLength` in closed form: `prealen AND 0x0F`, shifted left by two,
OR-ed into byte 2. -/
theorem preambleLength_eq (st : State) (p : Nat) :
    preambleLength st p =
      { st with
        _txfctrl := st._txfctrl.set 2
          ((st._txfctrl.getD 2 0 ||| ((p &&& 0x0F) <<< 2)) % 256) } := by
  have hle : p &&& 0x0F ≤ 0x0F := Nat.and_le_right
  unfold preambleLength
  generalize p &&& 0x0F = x at hle
  interval_cases x <;> rfl

/-- The pulse-frequency code written by `pulseFrequency` is 1 or 2. -/
theorem freq_code_range (f : Nat) :
    1 ≤ (if f &&& 3 = 0 ∨ f &&& 3 = 3 then 2 else f &&& 3) ∧
    (if f &&& 3 = 0 ∨ f &&& 3 = 3 then 2 else f &&& 3) ≤ 2 := by
  have hle : f &&& 3 ≤ 3 := Nat.and_le_right
  split <;> omega

/-- C23. Starting from the image `newTransmit` produces, `transmitRate(r)`,
`pulseFrequency(f)` and `preambleLength(p)` applied in any of the six orders
give the same transmit-frame-control image: byte 1 is `R << 5` with `R` the
rate code (`r AND 3`, 3 replaced by 2), byte 2 is `F OR ((p AND 0x0F) << 2)`
with `F` the pulse-frequency code (`f AND 3`, 0 and 3 replaced by 2), bytes 0,
3 and 4 are zero. In byte 2 the field in bits 0-1 reads `F`, the field in
bits 2-5 reads `p AND 0x0F`, and the two have no bit in common. -/
theorem transmit_configuration_order (st : State) (r f p : Nat) :
    (preambleLength (pulseFrequency (transmitRate (newTransmit st) r) f) p)._txfctrl =
      [0, (if r &&& 3 = 3 then 2 else r &&& 3) <<< 5,
        (if f &&& 3 = 0 ∨ f &&& 3 = 3 then 2 else f &&& 3) ||| ((p &&& 0x0F) <<< 2), 0, 0] ∧
    (pulseFrequency (preambleLength (transmitRate (newTransmit st) r) p) f)._txfctrl =
      (preambleLength (pulseFrequency (transmitRate (newTransmit st) r) f) p)._txfctrl ∧
    (preambleLength (transmitRate (pulseFrequency (newTransmit st) f) r) p)._txfctrl =
      (preambleLength (pulseFrequency (transmitRate (newTransmit st) r) f) p)._txfctrl ∧
    (transmitRate (preambleLength (pulseFrequency (newTransmit st) f) p) r)._txfctrl =
      (preambleLength (pulseFrequency (transmitRate (newTransmit st) r) f) p)._txfctrl ∧
    (pulseFrequency (transmitRate (preambleLength (newTransmit st) p) r) f)._txfctrl =
      (preambleLength (pulseFrequency (transmitRate (newTransmit st) r) f) p)._txfctrl ∧
    (transmitRate (pulseFrequency (preambleLength (newTransmit st) p) f) r)._txfctrl =
      (preambleLength (pulseFrequency (transmitRate (newTransmit st) r) f) p)._txfctrl ∧
    ((if f &&& 3 = 0 ∨ f &&& 3 = 3 then 2 else f &&& 3) ||| ((p &&& 0x0F) <<< 2)) &&& 3 =
      (if f &&& 3 = 0 ∨ f &&& 3 = 3 then 2 else f &&& 3) ∧
    (((if f &&& 3 = 0 ∨ f &&& 3 = 3 then 2 else f &&& 3) ||| ((p &&& 0x0F) <<< 2)) >>> 2)
      &&& 0x0F = p &&& 0x0F ∧
    (if f &&& 3 = 0 ∨ f &&& 3 = 3 then 2 else f &&& 3) &&& ((p &&& 0x0F) <<< 2) = 0 := by
  have hR := rate_code_le r
  obtain ⟨hF1, hF2⟩ := freq_code_range f
  have hP : p &&& 0x0F ≤ 0x0F := Nat.and_le_right
  simp only [transmitRate_eq, pulseFrequency_eq, preambleLength_eq, newTransmit, LEN_TX_FCTRL]
  generalize (if r &&& 3 = 3 then 2 else r &&& 3) = x at hR
  generalize (if f &&& 3 = 0 ∨ f &&& 3 = 3 then 2 else f &&& 3) = y at hF1 hF2
  generalize p &&& 0x0F = z at hP
  interval_cases x <;> interval_cases y <;> interval_cases z <;> decide


/-- Clearing bit 7 again gives back a value below 128. -/
theorem land_lor_low : ∀ x < 128, (0x80 ||| x) &&& 0x7F = x := by
  decide

/-- The sub-address read back from the header `writeBytes` builds, for a
sub-address in `1..16383`: byte 1 of a two-byte header, and
`(byte 1 AND 0x7F) + 128 * byte 2` of a three-byte header. -/
theorem writeBytesHeader_decode (cmd s : Nat) (h1 : 1 ≤ s) (h2 : s ≤ 16383) :
    (s < 128 ∧ writeBytesHeader cmd s = [(WRITE_SUB ||| cmd) % 256, s]) ∨
    (128 ≤ s ∧ ∃ b1 b2, writeBytesHeader cmd s = [(WRITE_SUB ||| cmd) % 256, b1, b2] ∧
      (b1 &&& 0x7F) + 128 * b2 = s) := by
  have hne : s ≠ 0 := by omega
  by_cases hlt : s < 128
  · left
    have hmod : s % 256 = s := by omega
    exact ⟨hlt, by simp [writeBytesHeader, NO_SUB, hne, hlt, hmod]⟩
  · right
    refine ⟨by omega, 0x80 ||| (s &&& 0x7F), s >>> 7, ?_, ?_⟩
    · have hhi : (s >>> 7) % 256 = s >>> 7 := by
        rw [Nat.shiftRight_eq_div_pow]
        omega
      simp only [writeBytesHeader, NO_SUB, hne, hlt, if_false, WRITE, lor_low_byte, hhi]
    · have hlow : s &&& 0x7F = s % 128 := Nat.and_pow_two_sub_one_eq_mod s 7
      rw [hlow, land_lor_low _ (Nat.mod_lt _ (by decide)), Nat.shiftRight_eq_div_pow]
      omega

/-- C27. For sub-addresses `s`, `t` in `1..16383` the header `writeBytes`
builds has 2 or 3 bytes; `s` is byte 1 of a 2-byte header and
`(byte 1 AND 0x7F) + 128 * byte 2` of a 3-byte header; equal headers for the
same register come from equal sub-addresses. -/
theorem writeBytesHeader_lossless (cmd s t : Nat) (hs1 : 1 ≤ s) (hs2 : s ≤ 16383)
    (ht1 : 1 ≤ t) (ht2 : t ≤ 16383) :
    ((writeBytesHeader cmd s).length = 2 ∨ (writeBytesHeader cmd s).length = 3) ∧
    ((writeBytesHeader cmd s).length = 2 → (writeBytesHeader cmd s).getD 1 0 = s) ∧
    ((writeBytesHeader cmd s).length = 3 →
      ((writeBytesHeader cmd s).getD 1 0 &&& 0x7F) + 128 * (writeBytesHeader cmd s).getD 2 0
        = s) ∧
    (writeBytesHeader cmd s = writeBytesHeader cmd t → s = t) := by
  have key : ∀ u, 1 ≤ u → u ≤ 16383 →
      ((writeBytesHeader cmd u).length = 2 ∧ (writeBytesHeader cmd u).getD 1 0 = u) ∨
      ((writeBytesHeader cmd u).length = 3 ∧
        ((writeBytesHeader cmd u).getD 1 0 &&& 0x7F) + 128 * (writeBytesHeader cmd u).getD 2 0
          = u) := by
    intro u hu1 hu2
    rcases writeBytesHeader_decode cmd u hu1 hu2 with ⟨-, h⟩ | ⟨-, b1, b2, h, hd⟩
    · left
      rw [h]
      exact ⟨rfl, rfl⟩
    · right
      rw [h]
      exact ⟨rfl, hd⟩
  refine ⟨?_, ?_, ?_, ?_⟩
  · rcases key s hs1 hs2 with ⟨h, -⟩ | ⟨h, -⟩
    · exact Or.inl h
    · exact Or.inr h
  · intro hlen
    rcases key s hs1 hs2 with ⟨-, h⟩ | ⟨h, -⟩
    · exact h
    · omega
  · intro hlen
    rcases key s hs1 hs2 with ⟨h, -⟩ | ⟨-, h⟩
    · omega
    · exact h
  · intro heq
    rcases key s hs1 hs2 with ⟨hl, hv⟩ | ⟨hl, hv⟩ <;>
      rcases key t ht1 ht2 with ⟨hl2, hv2⟩ | ⟨hl2, hv2⟩
    · rw [← hv, ← hv2, heq]
    · rw [heq] at hl
      omega
    · rw [heq] at hl
      omega
    · rw [← hv, ← hv2, heq]

theorem writeBytesHeader_lossless_witness :
    (1 ≤ 0x26 ∧ 0x26 ≤ 16383 ∧ 1 ≤ 0x1806 ∧ 0x1806 ≤ 16383) ∧
    (((writeBytesHeader DRX_TUNE 0x26).length = 2 ∨ (writeBytesHeader DRX_TUNE 0x26).length = 3) ∧
    ((writeBytesHeader DRX_TUNE 0x26).length = 2 →
      (writeBytesHeader DRX_TUNE 0x26).getD 1 0 = 0x26) ∧
    ((writeBytesHeader DRX_TUNE 0x26).length = 3 →
      ((writeBytesHeader DRX_TUNE 0x26).getD 1 0 &&& 0x7F) +
          128 * (writeBytesHeader DRX_TUNE 0x26).getD 2 0
        = 0x26) ∧
    (writeBytesHeader DRX_TUNE 0x26 = writeBytesHeader DRX_TUNE 0x1806 → 0x26 = 0x1806)) :=
  ⟨by decide, writeBytesHeader_lossless DRX_TUNE 0x26 0x1806 (by decide) (by decide)
    (by decide) (by decide)⟩


/-! ### The extended-frame-length flag -/

/-- `setData` does not write the extended-frame-length flag. -/
theorem setData_extendedFrameLength (st : State) (data : Nat → Nat) (n : Nat) :
    (setData st data n)._extendedFrameLength = st._extendedFrameLength := by
  unfold setData
  simp only [writeBytes]
  split_ifs <;> with_reducible rfl

/-- `tuneReceiver` does not write the extended-frame-length flag. -/
theorem tuneReceiver_extendedFrameLength (stack : Nat → Nat) (st : State)
    (rate PRF preamble pac : Nat) :
    (tuneReceiver stack st rate PRF preamble pac)._extendedFrameLength =
      st._extendedFrameLength := by
  unfold tuneReceiver
  by_cases h16 : PRF = RX_PULSE_FREQ_16MHz
  · simp only [h16, if_true]
    rfl
  · by_cases h64 : PRF = RX_PULSE_FREQ_64MHz
    · simp only [h16, h64, if_true, if_false]
      rfl
    · simp only [h16, h64, if_false]
      rfl

/-- `transmitFrameLength` does not write the extended-frame-length flag. -/
theorem transmitFrameLength_extendedFrameLength (shift0 shift1 next : Nat) (st : State)
    (n : Nat) :
    (transmitFrameLength shift0 shift1 next st n)._extendedFrameLength =
      st._extendedFrameLength := by
  rfl

/-- One case of `setDefaultMode` does not write the extended-frame-length
flag. -/
theorem setDefaultModeCase_extendedFrameLength (shift0 shift1 next : Nat) (stack : Nat → Nat)
    (st : State) (a b c d e f g h : Nat) :
    (setDefaultModeCase shift0 shift1 next stack st a b c d e f g h)._extendedFrameLength =
      st._extendedFrameLength := by
  unfold setDefaultModeCase
  rw [tuneReceiver_extendedFrameLength, transmitFrameLength_extendedFrameLength]
  rfl

/-- `setDefaultMode` does not write the extended-frame-length flag. -/
theorem setDefaultMode_extendedFrameLength (shift0 shift1 next : Nat) (stack : Nat → Nat)
    (st : State) (MODE : Int) :
    (setDefaultMode shift0 shift1 next stack st MODE)._extendedFrameLength =
      st._extendedFrameLength := by
  unfold setDefaultMode
  simp only [apply_ite State._extendedFrameLength, setDefaultModeCase_extendedFrameLength,
    ite_self]

/-- No call writes the extended-frame-length flag. -/
theorem perform_extendedFrameLength (st : State) (c : Call) :
    (perform st c)._extendedFrameLength = st._extendedFrameLength := by
  cases c with
  | setDefaultMode shift0 shift1 next stack MODE =>
    exact setDefaultMode_extendedFrameLength shift0 shift1 next stack st MODE
  | setData data n => exact setData_extendedFrameLength st data n
  | tuneReceiver stack rate PRF preamble pac =>
    exact tuneReceiver_extendedFrameLength stack st rate PRF preamble pac
  | storeSystemConfiguration i v =>
    simp only [perform]
    split_ifs <;> rfl
  | delayedTransceive shift delayNanos =>
    simp only [perform, delayedTransceive]
    split_ifs <;> rfl
  | setDefaults =>
    simp only [perform, setDefaults]
    split_ifs <;> rfl
  | isReceiveSuccess resp =>
    simp only [perform, isReceiveSuccess]
    split_ifs <;> rfl
  | _ => rfl

/-- The flag after a sequence of calls is the flag before it. -/
theorem performAll_extendedFrameLength (calls : List Call) (st : State) :
    (performAll st calls)._extendedFrameLength = st._extendedFrameLength := by
  induction calls generalizing st with
  | nil => rfl
  | cons c cs ih =>
    show (performAll (perform st c) cs)._extendedFrameLength = st._extendedFrameLength
    rw [ih, perform_extendedFrameLength]

/-- After construction and any sequence of calls of the public member
functions, `setData` leaves the state untouched (no bus write) for every
frame whose total length exceeds 127, as long as `n + 2` stays in the range
of `int`. -/
theorem performAll_setData_rejects (ss : Nat) (syscfg sysctrl txfctrl : List Nat)
    (calls : List Call) (data : Nat → Nat) (n : Nat) (hn : n ≤ 2147483645)
    (h : 127 < (if (performAll (new ss syscfg sysctrl txfctrl) calls)._frameCheckSuppressed
      then n else n + 2)) :
    setData (performAll (new ss syscfg sysctrl txfctrl) calls) data n =
      performAll (new ss syscfg sysctrl txfctrl) calls := by
  have hflag : (performAll (new ss syscfg sysctrl txfctrl) calls)._extendedFrameLength =
      false := by
    rw [performAll_extendedFrameLength]
    rfl
  apply setData_of_rejected _ _ _ hn
  rw [hflag]
  exact h

/-- C26 (fails on the code). After construction and any sequence of calls of
the public member functions the extended-frame-length flag is false. Yet in
the state reached by `newTransmit()`, `setData` with `n = 2147483647` is not
rejected although the total length exceeds 127: `n += 2` wraps around to a
negative `int`, both length guards pass and a write to the transmit buffer
register is issued. -/
theorem extendedFrameLength_false_setData_overflow (ss : Nat)
    (syscfg sysctrl txfctrl : List Nat) (calls : List Call) :
    (performAll (new ss syscfg sysctrl txfctrl) calls)._extendedFrameLength = false ∧
    (performAll (new 10 [0, 0, 0, 0] [0, 0, 0, 0] [0, 0, 0, 0, 0]) [Call.newTransmit])._frameCheckSuppressed = false ∧
    (performAll (new 10 [0, 0, 0, 0] [0, 0, 0, 0] [0, 0, 0, 0, 0]) [Call.newTransmit]).bus = [] ∧
    (setData (performAll (new 10 [0, 0, 0, 0] [0, 0, 0, 0] [0, 0, 0, 0, 0]) [Call.newTransmit])
      (fun i => i) 2147483647).bus = [Transaction.write [0x89] []] := by
  refine ⟨?_, by decide, by decide, by decide⟩
  rw [performAll_extendedFrameLength]
  rfl

end DW1000
